import Mathlib

/-!
Discount flyer layout engine.

A shallow embedding of the layout code of `src/js/discount-tool-new.js`
(`getSmartScaleFactors`, `processArabicText` and the measure / fit / render
phases of `createDiscountDesign`).

Conventions of the embedding:

* JavaScript numbers that carry lengths and scale factors are exact rationals
  (`ℚ`); `Math.round`, `Math.ceil` and `Math.floor` are the exact integer
  roundings of a rational, returned as rationals again since JavaScript has a
  single number type.
* The drawing library is external.  The only thing the layout reads back from
  it is the height of a text node, so the library enters as a function from
  the text node's configuration to its height (`TextEngine`).
* The bidi library is external too and enters `processArabicText` as an
  optional line-reordering function.
* Category discounts come from `parseInt`, so they are integers or `NaN`;
  `Math.min()` and `Math.max()` may also produce the two infinities.  These
  values are the type `JSNum`.
* The scale factors of `getSmartScaleFactors` also exist in binary64
  arithmetic (`getSmartScaleFactors64`), where a quotient is the binary64 number
  nearest to the exact one; this is where exact and JavaScript arithmetic part.
* A node of the design layer is the record of the attributes the source sets
  on it; an attribute the source leaves out has the library's default.  Images
  are attached by `onload` callbacks after the call and are listed apart.
* The footer reads the expiry date through `new Date(...)`, which depends on
  the time zone of the browser; it enters as a function to the three values
  read from the date object.

The language system (`src/js/i18n.js`), the helper `and` of the template
engine (`src/js/template-engine.js`) and the WhatsApp branch of the QR
generator (`src/js/qr-generator.js`) follow in namespaces of their own.
-/

namespace DiscountTool

/-! ## Numbers -/

/-- JavaScript `Math.round`: the nearest integer, ties going up. -/
def mathRound (x : ℚ) : ℚ := ((⌊x + 1 / 2⌋ : ℤ) : ℚ)

/-- JavaScript `Math.ceil`. -/
def mathCeil (x : ℚ) : ℚ := ((⌈x⌉ : ℤ) : ℚ)

/-- JavaScript `Math.floor`. -/
def mathFloor (x : ℚ) : ℚ := ((⌊x⌋ : ℤ) : ℚ)

/-- The number values a category discount and the badge bounds can take. -/
inductive JSNum where
  | nan : JSNum
  | negInf : JSNum
  | fin (v : ℤ) : JSNum
  | posInf : JSNum
  deriving DecidableEq, Repr

namespace JSNum

/-- Test for `NaN`. -/
def isNaN : JSNum → Bool
  | nan => true
  | _ => false

/-- The JavaScript comparison `a < b` (false whenever an operand is `NaN`). -/
def lt : JSNum → JSNum → Bool
  | nan, _ => false
  | _, nan => false
  | negInf, negInf => false
  | negInf, _ => true
  | fin _, negInf => false
  | fin a, fin b => decide (a < b)
  | fin _, posInf => true
  | posInf, _ => false

/-- Number-to-string conversion as used by a template literal; an integer is
printed in decimal, which is what JavaScript prints below 10^21. -/
def toJSString : JSNum → String
  | nan => "NaN"
  | negInf => "-Infinity"
  | fin v => toString v
  | posInf => "Infinity"

end JSNum

/-- The loop of `Math.min`: `lowest` is the running result. -/
def mathMinFrom (lowest : JSNum) : List JSNum → JSNum
  | [] => lowest
  | x :: xs =>
    if x.isNaN then JSNum.nan
    else mathMinFrom (if x.lt lowest then x else lowest) xs

/-- The loop of `Math.max`: `highest` is the running result. -/
def mathMaxFrom (highest : JSNum) : List JSNum → JSNum
  | [] => highest
  | x :: xs =>
    if x.isNaN then JSNum.nan
    else mathMaxFrom (if highest.lt x then x else highest) xs

/-- JavaScript `Math.min(...xs)`; it starts from `+Infinity`. -/
def mathMin (xs : List JSNum) : JSNum := mathMinFrom JSNum.posInf xs

/-- JavaScript `Math.max(...xs)`; it starts from `-Infinity`. -/
def mathMax (xs : List JSNum) : JSNum := mathMaxFrom JSNum.negInf xs

/-! ## Formats and scale factors -/

/-- One entry of `discountFormats`. -/
structure Format where
  name : String
  width : ℚ
  height : ℚ
  display : String
  deriving DecidableEq

/-- The table `discountFormats`, keyed by format key. -/
def discountFormats : String → Option Format
  | "story" => some ⟨"Instagram Story", 500, 900, "1080×1920 px (9:16)"⟩
  | "post" => some ⟨"Instagram Post", 700, 700, "1080×1080 px (1:1)"⟩
  | "a4" => some ⟨"A4 Flyer", 600, 850, "A4 (210×297 mm)"⟩
  | "wide" => some ⟨"Wide Banner", 900, 500, "1920×1080 px (16:9)"⟩
  | _ => none

/-- The object returned by `getSmartScaleFactors`. -/
structure ScaleFactors where
  width : ℚ
  height : ℚ
  font : ℚ
  spacing : ℚ
  element : ℚ
  deriving DecidableEq

/-- The function `getSmartScaleFactors`. -/
def getSmartScaleFactors (format : Format) : ScaleFactors :=
  let baseWidth : ℚ := 500
  let baseHeight : ℚ := 900
  let widthScale := format.width / baseWidth
  let heightScale := format.height / baseHeight
  let minScale := min widthScale heightScale
  let fontScale := minScale * 1.1
  { width := widthScale
    height := heightScale
    font := fontScale
    spacing := minScale
    element := minScale }

/-! ## Document -/

/-- One entry of `discountData.categories`. -/
structure Category where
  name : String
  discount : JSNum
  deriving DecidableEq

/-- The object `discountData.design`. -/
structure Design where
  backgroundColor : String
  badgeColor : String
  textColor : String
  logoImage : Option String
  logoWidth : ℚ
  logoHeight : ℚ
  qrImages : List (Option String)
  backgroundImage : Option String

/-- The object `discountData`. -/
structure DiscountData where
  storeName : String
  tagline : String
  location : String
  mainTitle : String
  description : String
  categories : List Category
  expiryDate : String
  phoneNumber : String
  tiktokHandle : String
  design : Design

/-- Truthiness of an image slot: `null` and the empty string are falsy. -/
def truthy : Option String → Bool
  | none => false
  | some s => s != ""

/-- The initial value of `discountData`. -/
def defaultDiscountData : DiscountData :=
  { storeName := "Alalamy Sharjah"
    tagline := "العالمي ملك السعادة ❤️"
    location := "فرع الشارقة"
    mainTitle := "عروض خصم متنوعة على جميع الإكسسوارات! 🎉"
    description := "• لحامل هذه البطاقة فقط\n• لا يجمع مع عروض أخرى\n• متوفر في فرع الشارقة فقط"
    categories :=
      [ ⟨"كفرات موبايل", JSNum.fin 30⟩,
        ⟨"شواحن وكابلات", JSNum.fin 25⟩,
        ⟨"ماوس ولوحات مفاتيح", JSNum.fin 20⟩,
        ⟨"سماعات وأكسسوارات", JSNum.fin 15⟩ ]
    expiryDate := "2025-12-31"
    phoneNumber := ""
    tiktokHandle := "alalamy.sharjah"
    design :=
      { backgroundColor := "#4F46E5"
        badgeColor := "#FF0000"
        textColor := "#ffffff"
        logoImage := none
        logoWidth := 60
        logoHeight := 60
        qrImages := [none, none, none, none]
        backgroundImage := none } }

/-! ## Bidi processing -/

/-- The test of `processArabicText` for a character in U+0600..U+06FF. -/
def hasArabic (text : String) : Bool :=
  text.toList.any (fun c => decide (0x0600 ≤ c.toNat ∧ c.toNat ≤ 0x06FF))

/-- The call `text.split('\n')` on the characters of the text: the pieces
between line feeds, a single empty piece for the empty text. -/
def splitLines : List Char → List (List Char)
  | [] => [[]]
  | c :: cs =>
    if c = '\n' then [] :: splitLines cs
    else
      match splitLines cs with
      | [] => [[c]]
      | line :: rest => (c :: line) :: rest

/-- The function `processArabicText`; `bidi` is the result of `getBidi()`
reduced to its `getReorderedString(line, 'rtl')`, `none` when the library is
not loaded. -/
def processArabicText (bidi : Option (String → String)) (text : String) : String :=
  if text = "" then text
  else if !hasArabic text then text
  else
    match bidi with
    | some getReorderedString =>
      "\n".intercalate
        (((splitLines text.toList).map String.mk).map (fun line => getReorderedString line))
    | none => text

/-! ## createDiscountDesign: text measurement -/

/-- Configuration of a text node, as far as its height depends on it. -/
structure TextSpec where
  text : String
  fontSize : ℚ
  fontFamily : String
  fontStyle : String
  width : ℚ
  lineHeight : ℚ
  deriving DecidableEq

/-- The drawing library's answer to `height()` of a text node. -/
abbrev TextEngine := TextSpec → ℚ

/-- The helper `measureText` of `createDiscountDesign`. -/
def measureText (konva : TextEngine) (text : String) (fontSize : ℚ)
    (fontFamily fontStyle : String) (maxWidth : ℚ) : ℚ :=
  konva
    { text := text
      fontSize := fontSize
      fontFamily := fontFamily
      fontStyle := fontStyle
      width := maxWidth
      lineHeight := 1.3 }

/-! ## createDiscountDesign: measure phase -/

/-- The constants named in the measure phase of `createDiscountDesign`. -/
structure Measured where
  margin : ℚ
  padding : ℚ
  safeWidth : ℚ
  storeNameHeight : ℚ
  taglineHeight : ℚ
  locationHeight : ℚ
  mainTitleHeight : ℚ
  descriptionHeight : ℚ
  logoHeight : ℚ
  headerGap : ℚ
  sectionGap : ℚ
  headerTotalHeight : ℚ
  badgeHeight : ℚ
  categoryRowHeight : ℚ
  categoryGap : ℚ
  categoriesTotalHeight : ℚ
  termsTotalHeight : ℚ
  qrSectionHeight : ℚ
  footerHeight : ℚ
  socialHeight : ℚ
  totalRequiredHeight : ℚ

/-- The measure phase of `createDiscountDesign` (section 2 of the layout
engine), run with the initial scale factors. -/
def measurePhase (konva : TextEngine) (data : DiscountData) (format : Format)
    (scale : ScaleFactors) : Measured :=
  let baseMargin : ℚ := 30
  let basePadding : ℚ := 10
  let margin := mathRound (baseMargin * scale.spacing)
  let padding := mathRound (basePadding * scale.spacing)
  let safeWidth := format.width - (margin * 2)
  let storeNameHeight :=
    measureText konva data.storeName (mathRound (32 * scale.font)) "Almarai, Arial" "bold" safeWidth
  let taglineHeight :=
    measureText konva data.tagline (mathRound (15 * scale.font)) "Almarai" "bold" safeWidth
  let locationHeight :=
    measureText konva data.location (mathRound (13 * scale.font)) "Almarai" "normal" safeWidth
  let mainTitleHeight :=
    measureText konva data.mainTitle (mathRound (24 * scale.font)) "Almarai" "bold" safeWidth
  let descriptionHeight :=
    measureText konva data.description (mathRound (11 * scale.font)) "Almarai" "normal"
      (safeWidth - (padding * 2))
  let logoHeight :=
    if truthy data.design.logoImage then
      mathRound (data.design.logoHeight * scale.element) + mathRound (20 * scale.spacing)
    else 0
  let headerGap := mathRound (10 * scale.spacing)
  let sectionGap := mathRound (25 * scale.spacing)
  let headerTotalHeight :=
    logoHeight + storeNameHeight + headerGap + taglineHeight + headerGap + locationHeight +
      headerGap + mainTitleHeight
  let badgeHeight := mathRound (50 * scale.spacing)
  let categoryRowHeight := mathRound (70 * scale.spacing)
  let categoryGap := mathRound (12 * scale.spacing)
  let categoriesTotalHeight :=
    (mathCeil ((data.categories.length : ℚ) / 2) * categoryRowHeight) +
      ((mathCeil ((data.categories.length : ℚ) / 2) - 1) * categoryGap)
  let termsTotalHeight := descriptionHeight + mathRound (45 * scale.spacing)
  let qrSectionHeight := mathRound (120 * scale.spacing)
  let footerHeight := mathRound (60 * scale.spacing)
  let socialHeight := mathRound (20 * scale.spacing)
  let totalRequiredHeight :=
    margin +
      headerTotalHeight + sectionGap +
      badgeHeight + sectionGap +
      categoriesTotalHeight + sectionGap +
      termsTotalHeight + sectionGap +
      qrSectionHeight + sectionGap +
      socialHeight + sectionGap +
      footerHeight +
      margin
  { margin := margin
    padding := padding
    safeWidth := safeWidth
    storeNameHeight := storeNameHeight
    taglineHeight := taglineHeight
    locationHeight := locationHeight
    mainTitleHeight := mainTitleHeight
    descriptionHeight := descriptionHeight
    logoHeight := logoHeight
    headerGap := headerGap
    sectionGap := sectionGap
    headerTotalHeight := headerTotalHeight
    badgeHeight := badgeHeight
    categoryRowHeight := categoryRowHeight
    categoryGap := categoryGap
    categoriesTotalHeight := categoriesTotalHeight
    termsTotalHeight := termsTotalHeight
    qrSectionHeight := qrSectionHeight
    footerHeight := footerHeight
    socialHeight := socialHeight
    totalRequiredHeight := totalRequiredHeight }

/-! ## createDiscountDesign: fit calculation and scaling -/

/-- The fit calculation (section 3): `fitRatio` from the measured total and
the available height.  The division is only reached with
`totalRequiredHeight > availableHeight`. -/
def fitRatio (totalRequiredHeight availableHeight : ℚ) : ℚ :=
  if totalRequiredHeight > availableHeight then
    max (availableHeight / totalRequiredHeight) 0.65
  else 1.0

/-- The scaling step (section 4): the three in-place updates of `scale`. -/
def applyFitRatio (scale : ScaleFactors) (ratio : ℚ) : ScaleFactors :=
  { scale with
    font := scale.font * ratio
    spacing := scale.spacing * ratio
    element := scale.element * ratio }

/-- The state of `createDiscountDesign` when the render phase begins. -/
structure Fitted where
  initialScale : ScaleFactors
  measured : Measured
  fitRatio : ℚ
  scale : ScaleFactors

/-- The function `createDiscountDesign` from the initial `scale` up to the
end of section 4. -/
def fitPhase (konva : TextEngine) (data : DiscountData) (format : Format) : Fitted :=
  let scale := getSmartScaleFactors format
  let measured := measurePhase konva data format scale
  let availableHeight := format.height
  let ratio := fitRatio measured.totalRequiredHeight availableHeight
  { initialScale := scale
    measured := measured
    fitRatio := ratio
    scale := applyFitRatio scale ratio }

/-! ## createDiscountDesign: render phase -/

/-- Height of a rendered text node: `element.height()` of a text node built
from the given configuration. -/
def nodeHeight (konva : TextEngine) (text : String) (fontSize : ℚ)
    (fontFamily fontStyle : String) (width lineHeight : ℚ) : ℚ :=
  konva
    { text := text
      fontSize := fontSize
      fontFamily := fontFamily
      fontStyle := fontStyle
      width := width
      lineHeight := lineHeight }

/-- The template literal of the main badge, before bidi processing. -/
def badgeTemplate (minDiscount maxDiscount : JSNum) : String :=
  "من " ++ minDiscount.toJSString ++ "% إلى " ++ maxDiscount.toJSString ++ "% خصم"

/-- The text of the node `badgeText`, from the category list. -/
def badgeText (bidi : Option (String → String)) (categories : List Category) : String :=
  let discounts := categories.map (fun c => c.discount)
  let minDiscount := mathMin discounts
  let maxDiscount := mathMax discounts
  processArabicText bidi (badgeTemplate minDiscount maxDiscount)

/-- The variable `categoryCols` of the render phase. -/
def categoryCols (currentDiscountFormat : String) : ℕ :=
  if currentDiscountFormat = "wide" then 4 else 2

/-- The variable `col` of the category loop. -/
def categoryCol (cols index : ℕ) : ℕ := index % cols

/-- The variable `row` of the category loop. -/
def categoryRow (cols index : ℕ) : ℚ := mathFloor ((index : ℚ) / (cols : ℚ))

/-- The values the render phase of `createDiscountDesign` computes for the
cursor `currentY` and for the geometry of the sections, in source order.
A field ending in `Y` is the value of `currentY` when that element or section
is placed. -/
structure Rendered where
  margin : ℚ
  padding : ℚ
  safeWidth : ℚ
  startY : ℚ
  storeNameY : ℚ
  taglineY : ℚ
  locationY : ℚ
  mainTitleY : ℚ
  badgeY : ℚ
  badgeWidth : ℚ
  scaledBadgeHeight : ℚ
  badgeText : String
  categoriesY : ℚ
  scaledCategoryGap : ℚ
  scaledCategoryRowHeight : ℚ
  categoryCols : ℕ
  categoryWidth : ℚ
  categoriesHeight : ℚ
  termsY : ℚ
  termsBoxHeight : ℚ
  qrY : ℚ
  qrSize : ℚ
  qrSectionRealHeight : ℚ
  socialY : ℚ
  footerCursorY : ℚ
  scaledFooterHeight : ℚ
  footerY : ℚ

/-- The render phase of `createDiscountDesign`: the cursor and the section
geometry, from the fitted scale factors. -/
def renderPhase (konva : TextEngine) (bidi : Option (String → String))
    (data : DiscountData) (currentDiscountFormat : String) (format : Format)
    (scale : ScaleFactors) (fitRatio : ℚ) : Rendered :=
  let baseMargin : ℚ := 30
  let basePadding : ℚ := 10
  let margin := mathRound (baseMargin * scale.spacing)
  let padding := mathRound (basePadding * scale.spacing)
  let safeWidth := format.width - (margin * 2)
  let gap := fun (gapAfter : ℚ) => mathRound (gapAfter * scale.spacing)
  let startY := margin
  -- 1. Header
  let storeNameY :=
    if truthy data.design.logoImage then
      startY + (mathRound (data.design.logoHeight * scale.element) + mathRound (20 * scale.spacing))
    else startY
  let taglineY :=
    storeNameY +
      (nodeHeight konva data.storeName (mathRound (32 * scale.font)) "Almarai, Arial" "bold"
        safeWidth 1 + gap 10)
  let locationY :=
    taglineY +
      (nodeHeight konva data.tagline (mathRound (15 * scale.font)) "Almarai" "bold"
        safeWidth 1 + gap 10)
  let mainTitleY :=
    locationY +
      (nodeHeight konva data.location (mathRound (13 * scale.font)) "Almarai" "normal"
        safeWidth 1 + gap 15)
  let badgeY :=
    mainTitleY +
      (nodeHeight konva data.mainTitle (mathRound (24 * scale.font)) "Almarai" "bold"
        safeWidth 1.3 + gap 25)
  -- 2. Badge
  let badgeWidth := mathRound (200 * scale.width * fitRatio)
  let scaledBadgeHeight := mathRound (50 * scale.spacing)
  let categoriesY := badgeY + (scaledBadgeHeight + mathRound (25 * scale.spacing))
  -- 3. Categories
  let scaledCategoryGap := mathRound (12 * scale.spacing)
  let scaledCategoryRowHeight := mathRound (70 * scale.spacing)
  let cols := categoryCols currentDiscountFormat
  let categoryWidth :=
    mathRound ((safeWidth - ((cols : ℚ) - 1) * scaledCategoryGap) / (cols : ℚ))
  let categoriesHeight :=
    mathCeil ((data.categories.length : ℚ) / (cols : ℚ)) *
      (scaledCategoryRowHeight + scaledCategoryGap)
  let termsY := categoriesY + (categoriesHeight + mathRound (20 * scale.spacing))
  -- 4. Terms
  let finalDescHeight :=
    measureText konva data.description (mathRound (11 * scale.font)) "Almarai" "normal"
      (safeWidth - (padding * 2))
  let termsBoxHeight := finalDescHeight + mathRound (45 * scale.spacing)
  let qrY := termsY + (termsBoxHeight + mathRound (20 * scale.spacing))
  -- 5. QR section
  let smallGap := mathRound (8 * scale.spacing)
  let qrSize0 := mathRound ((safeWidth - (smallGap * 5)) / 4)
  let maxQrSize := mathRound (150 * scale.spacing)
  let qrSize := if qrSize0 > maxQrSize then maxQrSize else qrSize0
  let qrSectionRealHeight :=
    mathRound (30 * scale.spacing) + qrSize + mathRound (20 * scale.spacing)
  let socialY := qrY + (qrSectionRealHeight + mathRound (15 * scale.spacing))
  -- 6. Footer and social
  let footerCursorY :=
    socialY +
      (nodeHeight konva ("تابعنا على @" ++ data.tiktokHandle) (mathRound (11 * scale.font))
        "Almarai" "bold" (safeWidth - (padding * 2)) 1 + gap 15)
  let scaledFooterHeight := mathRound (60 * scale.spacing)
  let footerY :=
    if footerCursorY + scaledFooterHeight > format.height - margin then
      format.height - margin - scaledFooterHeight
    else footerCursorY
  { margin := margin
    padding := padding
    safeWidth := safeWidth
    startY := startY
    storeNameY := storeNameY
    taglineY := taglineY
    locationY := locationY
    mainTitleY := mainTitleY
    badgeY := badgeY
    badgeWidth := badgeWidth
    scaledBadgeHeight := scaledBadgeHeight
    badgeText := badgeText bidi data.categories
    categoriesY := categoriesY
    scaledCategoryGap := scaledCategoryGap
    scaledCategoryRowHeight := scaledCategoryRowHeight
    categoryCols := cols
    categoryWidth := categoryWidth
    categoriesHeight := categoriesHeight
    termsY := termsY
    termsBoxHeight := termsBoxHeight
    qrY := qrY
    qrSize := qrSize
    qrSectionRealHeight := qrSectionRealHeight
    socialY := socialY
    footerCursorY := footerCursorY
    scaledFooterHeight := scaledFooterHeight
    footerY := footerY }

/-- Position `(xPos, yPosCategory)` of the group of the category with the
given index, inside the category loop of the render phase. -/
def categoryPosition (r : Rendered) (index : ℕ) : ℚ × ℚ :=
  let col := categoryCol r.categoryCols index
  let row := categoryRow r.categoryCols index
  let xPos := r.margin + (col : ℚ) * (r.categoryWidth + r.scaledCategoryGap)
  let yPosCategory := r.categoriesY + row * (r.scaledCategoryRowHeight + r.scaledCategoryGap)
  (xPos, yPosCategory)

/-- The function `createDiscountDesign` on an existing design layer: the
format is looked up under the current key (a missing key makes the call
throw, here `none`), then measure, fit and render follow. -/
def createDiscountDesign (konva : TextEngine) (bidi : Option (String → String))
    (data : DiscountData) (currentDiscountFormat : String) : Option Rendered :=
  match discountFormats currentDiscountFormat with
  | none => none
  | some format =>
    let fit := fitPhase konva data format
    some (renderPhase konva bidi data currentDiscountFormat format fit.scale fit.fitRatio)

/-- A text engine for unwrapped single-line text: one line of the font size
times the line-height multiplier. -/
def singleLineEngine : TextEngine := fun spec => spec.fontSize * spec.lineHeight

/-! ## createDiscountDesign: nodes of the design layer -/

/-- A text node as the render phase configures it.  An attribute the source
leaves out has the drawing library's default. -/
structure TextNode where
  x : ℚ
  y : ℚ
  text : String
  fontSize : ℚ
  fontFamily : String := "Arial"
  fontStyle : String := "normal"
  fill : String := "black"
  align : String := "left"
  width : ℚ
  lineHeight : ℚ := 1
  draggable : Bool := false
  name : String := ""

/-- The attributes of a text node that determine its height. -/
def TextNode.spec (node : TextNode) : TextSpec :=
  { text := node.text
    fontSize := node.fontSize
    fontFamily := node.fontFamily
    fontStyle := node.fontStyle
    width := node.width
    lineHeight := node.lineHeight }

/-- A rectangle node as the render phase configures it. -/
structure RectNode where
  x : ℚ
  y : ℚ
  width : ℚ
  height : ℚ
  fill : String
  cornerRadius : ℚ
  stroke : Option String := none
  strokeWidth : Option ℚ := none
  shadowColor : Option String := none
  shadowBlur : Option ℚ := none
  shadowOpacity : Option ℚ := none
  draggable : Bool := false
  name : String := ""

/-- An image node, created in the `onload` callback of its image. -/
structure ImageNode where
  src : String
  x : ℚ
  y : ℚ
  width : ℚ
  height : ℚ
  cornerRadius : Option ℚ := none
  draggable : Bool := false
  name : String := ""

/-- A node added during the synchronous render phase. -/
inductive Node where
  | text (node : TextNode) : Node
  | rect (node : RectNode) : Node
  | group (x y : ℚ) (draggable : Bool) (name : String) (children : List Node) : Node

/-- The `draggable` attribute of a node. -/
def Node.draggable : Node → Bool
  | Node.text node => node.draggable
  | Node.rect node => node.draggable
  | Node.group _ _ draggable _ _ => draggable

/-- The `x` attribute of a node. -/
def Node.x : Node → ℚ
  | Node.text node => node.x
  | Node.rect node => node.x
  | Node.group x _ _ _ _ => x

/-- The `y` attribute of a node. -/
def Node.y : Node → ℚ
  | Node.text node => node.y
  | Node.rect node => node.y
  | Node.group _ y _ _ _ => y

/-- What the footer reads from `new Date(data.expiryDate)`. -/
structure DateObj where
  getDate : JSNum
  getMonth : JSNum
  getFullYear : JSNum

/-- The table `months` of the footer. -/
def months : List String :=
  ["يناير", "فبراير", "مارس", "أبريل", "مايو", "يونيو",
    "يوليو", "أغسطس", "سبتمبر", "أكتوبر", "نوفمبر", "ديسمبر"]

/-- The lookup `months[m]` inside a template literal; a missing entry prints
as `undefined`. -/
def monthName (m : JSNum) : String :=
  match m with
  | JSNum.fin v => if 0 ≤ v then months.getD v.toNat "undefined" else "undefined"
  | _ => "undefined"

/-- The template literal `arabicDate`. -/
def arabicDate (dateObj : DateObj) : String :=
  dateObj.getDate.toJSString ++ " " ++ monthName dateObj.getMonth ++ " " ++
    dateObj.getFullYear.toJSString

/-- The text node `storeName`. -/
def storeNameNode (data : DiscountData) (scale : ScaleFactors) (r : Rendered) : TextNode :=
  { x := r.margin
    y := r.storeNameY
    text := data.storeName
    fontSize := mathRound (32 * scale.font)
    fontFamily := "Almarai, Arial"
    fontStyle := "bold"
    fill := "#ffffff"
    align := "center"
    width := r.safeWidth
    draggable := true
    name := "storeName" }

/-- The text node `tagline`. -/
def taglineNode (data : DiscountData) (scale : ScaleFactors) (r : Rendered) : TextNode :=
  { x := r.margin
    y := r.taglineY
    text := data.tagline
    fontSize := mathRound (15 * scale.font)
    fontFamily := "Almarai"
    fontStyle := "bold"
    fill := "#FFD700"
    align := "center"
    width := r.safeWidth
    draggable := true
    name := "tagline" }

/-- The text node `location`. -/
def locationNode (data : DiscountData) (scale : ScaleFactors) (r : Rendered) : TextNode :=
  { x := r.margin
    y := r.locationY
    text := data.location
    fontSize := mathRound (13 * scale.font)
    fontFamily := "Almarai"
    fill := "#ffffff"
    align := "center"
    width := r.safeWidth
    draggable := true
    name := "location" }

/-- The text node `mainTitle`. -/
def mainTitleNode (data : DiscountData) (scale : ScaleFactors) (r : Rendered) : TextNode :=
  { x := r.margin
    y := r.mainTitleY
    text := data.mainTitle
    fontSize := mathRound (24 * scale.font)
    fontFamily := "Almarai"
    fontStyle := "bold"
    fill := "#ffffff"
    align := "center"
    width := r.safeWidth
    lineHeight := 1.3
    draggable := true
    name := "mainTitle" }

/-- The group `badgeGroup` with its rectangle and its text. -/
def badgeGroupNode (data : DiscountData) (format : Format) (scale : ScaleFactors)
    (r : Rendered) : Node :=
  let badgeRect : RectNode :=
    { x := 0
      y := 0
      width := r.badgeWidth
      height := r.scaledBadgeHeight
      fill := data.design.badgeColor
      cornerRadius := r.scaledBadgeHeight / 2
      shadowColor := some "black"
      shadowBlur := some (mathRound (15 * scale.spacing))
      shadowOpacity := some 0.4 }
  let badgeTextNode : TextNode :=
    { x := 0
      y := r.scaledBadgeHeight / 2 - mathRound (10 * scale.font)
      text := r.badgeText
      fontSize := mathRound (20 * scale.font)
      fontFamily := "Almarai"
      fontStyle := "bold"
      fill := "#ffffff"
      align := "center"
      width := r.badgeWidth
      name := "badgeText" }
  Node.group ((format.width - r.badgeWidth) / 2) r.badgeY true "badgeGroup"
    [Node.rect badgeRect, Node.text badgeTextNode]

/-- The group `catGroup` of one pass of the category loop. -/
def categoryGroupNode (bidi : Option (String → String)) (data : DiscountData)
    (scale : ScaleFactors) (fitRatio : ℚ) (r : Rendered) (index : ℕ) (category : Category) :
    Node :=
  let catBg : RectNode :=
    { x := 0
      y := 0
      width := r.categoryWidth
      height := r.scaledCategoryRowHeight
      fill := "rgba(255, 255, 255, 0.9)"
      cornerRadius := mathRound (10 * scale.spacing) }
  let catName : TextNode :=
    { x := r.padding
      y := mathRound (12 * scale.spacing)
      text := processArabicText bidi category.name
      fontSize := mathRound (12 * scale.font)
      fontFamily := "Almarai"
      fontStyle := "bold"
      fill := "#333"
      align := "right"
      width := r.categoryWidth - (r.padding * 2) }
  let catBadgeWidth := mathRound (70 * scale.width * fitRatio)
  let catBadgeHeight := mathRound (22 * scale.spacing)
  let discountBadgeBg : RectNode :=
    { x := 0
      y := 0
      width := catBadgeWidth
      height := catBadgeHeight
      fill := data.design.badgeColor
      cornerRadius := catBadgeHeight / 2 }
  let discountText : TextNode :=
    { x := 0
      y := catBadgeHeight / 2 - mathRound (6 * scale.font)
      text := processArabicText bidi (category.discount.toJSString ++ "% خصم")
      fontSize := mathRound (11 * scale.font)
      fontFamily := "Almarai"
      fontStyle := "bold"
      fill := "#ffffff"
      align := "center"
      width := catBadgeWidth }
  let discountBadgeGroup : Node :=
    Node.group ((r.categoryWidth - catBadgeWidth) / 2) (mathRound (40 * scale.spacing)) false ""
      [Node.rect discountBadgeBg, Node.text discountText]
  Node.group (categoryPosition r index).1 (categoryPosition r index).2 true
    ("category_" ++ toString index)
    [Node.rect catBg, Node.text catName, discountBadgeGroup]

/-- The rectangle `descBg`. -/
def descBgNode (scale : ScaleFactors) (r : Rendered) : RectNode :=
  { x := r.margin
    y := r.termsY
    width := r.safeWidth
    height := r.termsBoxHeight
    fill := "rgba(255, 255, 255, 0.95)"
    cornerRadius := mathRound (12 * scale.spacing)
    draggable := true
    name := "descriptionBg" }

/-- The text node `descTitle`. -/
def descTitleNode (bidi : Option (String → String)) (scale : ScaleFactors) (r : Rendered) :
    TextNode :=
  { x := r.margin + r.padding
    y := r.termsY + mathRound (12 * scale.spacing)
    text := processArabicText bidi "⚠️ الشروط والملاحظات:"
    fontSize := mathRound (12 * scale.font)
    fontFamily := "Almarai"
    fontStyle := "bold"
    fill := "#333"
    align := "right"
    width := r.safeWidth - (r.padding * 2)
    draggable := true
    name := "descriptionTitle" }

/-- The text node `descContent`. -/
def descContentNode (bidi : Option (String → String)) (data : DiscountData)
    (scale : ScaleFactors) (r : Rendered) : TextNode :=
  { x := r.margin + r.padding
    y := r.termsY + mathRound (35 * scale.spacing)
    text := processArabicText bidi data.description
    fontSize := mathRound (11 * scale.font)
    fontFamily := "Almarai"
    fill := "#333"
    align := "right"
    width := r.safeWidth - (r.padding * 2)
    lineHeight := 1.6
    draggable := true
    name := "descriptionContent" }

/-- The rectangle `qrSectionBg`. -/
def qrSectionBgNode (scale : ScaleFactors) (r : Rendered) : RectNode :=
  { x := r.margin
    y := r.qrY
    width := r.safeWidth
    height := r.qrSectionRealHeight
    fill := "white"
    cornerRadius := mathRound (12 * scale.spacing)
    draggable := true
    name := "qrSectionBg" }

/-- The text node `qrText`. -/
def qrTextNode (scale : ScaleFactors) (r : Rendered) : TextNode :=
  { x := r.margin + r.padding
    y := r.qrY + mathRound (10 * scale.spacing)
    text := "تابعنا:"
    fontSize := mathRound (11 * scale.font)
    fontFamily := "Almarai"
    fontStyle := "bold"
    fill := "#333"
    align := "center"
    width := r.safeWidth - (r.padding * 2)
    draggable := true
    name := "qrText" }

/-- The variable `qrX` of the QR loop, for slot `i`. -/
def qrX (scale : ScaleFactors) (r : Rendered) (i : ℕ) : ℚ :=
  let smallGap := mathRound (8 * scale.spacing)
  let totalQrWidth := (4 * r.qrSize) + (3 * smallGap)
  let startQrX := r.margin + (r.safeWidth - totalQrWidth) / 2
  startQrX + (i : ℚ) * (r.qrSize + smallGap)

/-- The variable `qrY` of the QR loop (the same for every slot). -/
def qrSlotY (scale : ScaleFactors) (r : Rendered) : ℚ :=
  r.qrY + mathRound (30 * scale.spacing)

/-- What one pass of the QR loop produces: an image to be attached when it
has loaded, or the three placeholder nodes added at once. -/
inductive QrSlot where
  | image (node : ImageNode) : QrSlot
  | placeholder (box : RectNode) (icon : TextNode) (label : TextNode) : QrSlot

/-- One pass of the QR loop, for slot `i`. -/
def qrSlot (data : DiscountData) (scale : ScaleFactors) (r : Rendered) (i : ℕ) : QrSlot :=
  if truthy (data.design.qrImages.getD i none) then
    QrSlot.image
      { src := (data.design.qrImages.getD i none).getD ""
        x := qrX scale r i
        y := qrSlotY scale r
        width := r.qrSize
        height := r.qrSize
        cornerRadius := some 6
        draggable := true
        name := "qr_" ++ toString i }
  else
    QrSlot.placeholder
      { x := qrX scale r i
        y := qrSlotY scale r
        width := r.qrSize
        height := r.qrSize
        stroke := some "#4F46E5"
        strokeWidth := some (max 1 (mathRound (2 * scale.spacing)))
        cornerRadius := mathRound (6 * scale.spacing)
        fill := "white"
        draggable := true
        name := "qrPlaceholder_" ++ toString i }
      { x := qrX scale r i
        y := qrSlotY scale r + r.qrSize / 2 - mathRound (12 * scale.font)
        text := "📱"
        fontSize := mathRound (20 * scale.font)
        align := "center"
        width := r.qrSize }
      { x := qrX scale r i
        y := qrSlotY scale r + r.qrSize / 2 + mathRound (8 * scale.font)
        text := "QR " ++ toString (i + 1)
        fontSize := mathRound (8 * scale.font)
        fontFamily := "Inter"
        fill := "#4F46E5"
        align := "center"
        width := r.qrSize }

/-- The QR loop `for (let i = 0; i < 4; i++)`. -/
def qrSlots (data : DiscountData) (scale : ScaleFactors) (r : Rendered) : List QrSlot :=
  (List.range 4).map (qrSlot data scale r)

/-- Whether a slot is a placeholder. -/
def QrSlot.isPlaceholder : QrSlot → Bool
  | QrSlot.image _ => false
  | QrSlot.placeholder _ _ _ => true

/-- Left edge of a slot. -/
def QrSlot.x : QrSlot → ℚ
  | QrSlot.image node => node.x
  | QrSlot.placeholder box _ _ => box.x

/-- Width of a slot. -/
def QrSlot.width : QrSlot → ℚ
  | QrSlot.image node => node.width
  | QrSlot.placeholder box _ _ => box.width

/-- Height of a slot. -/
def QrSlot.height : QrSlot → ℚ
  | QrSlot.image node => node.height
  | QrSlot.placeholder box _ _ => box.height

/-- The nodes a slot adds to the design layer during the render phase. -/
def QrSlot.syncNodes : QrSlot → List Node
  | QrSlot.image _ => []
  | QrSlot.placeholder box icon label => [Node.rect box, Node.text icon, Node.text label]

/-- The image a slot attaches once it has loaded. -/
def QrSlot.pending : QrSlot → List ImageNode
  | QrSlot.image node => [node]
  | QrSlot.placeholder _ _ _ => []

/-- The text node `socialText`. -/
def socialTextNode (data : DiscountData) (scale : ScaleFactors) (r : Rendered) : TextNode :=
  { x := r.margin + r.padding
    y := r.socialY
    text := "تابعنا على @" ++ data.tiktokHandle
    fontSize := mathRound (11 * scale.font)
    fontFamily := "Almarai"
    fontStyle := "bold"
    fill := "#FF0000"
    align := "center"
    width := r.safeWidth - (r.padding * 2)
    draggable := true
    name := "socialText" }

/-- The rectangle `footerBg`. -/
def footerBgNode (scale : ScaleFactors) (r : Rendered) : RectNode :=
  { x := r.margin
    y := r.footerY
    width := r.safeWidth
    height := r.scaledFooterHeight
    fill := "rgba(255, 255, 255, 0.9)"
    cornerRadius := mathRound (12 * scale.spacing)
    draggable := true
    name := "footerBg" }

/-- The group `expiryGroup` with its rectangle and its text. -/
def expiryGroupNode (newDate : String → DateObj) (data : DiscountData) (format : Format)
    (scale : ScaleFactors) (fitRatio : ℚ) (r : Rendered) : Node :=
  let expiryWidth := mathRound (180 * scale.width * fitRatio)
  let expiryHeight := mathRound (26 * scale.spacing)
  let expiryBg : RectNode :=
    { x := 0
      y := 0
      width := expiryWidth
      height := expiryHeight
      fill := "#FF0000"
      cornerRadius := expiryHeight / 2 }
  let expiryText : TextNode :=
    { x := 0
      y := expiryHeight / 2 - mathRound (6 * scale.font)
      text := "ينتهي في: " ++ arabicDate (newDate data.expiryDate)
      fontSize := mathRound (11 * scale.font)
      fontFamily := "Almarai"
      fontStyle := "bold"
      fill := "#ffffff"
      align := "center"
      width := expiryWidth }
  Node.group ((format.width - expiryWidth) / 2) (r.footerY + mathRound (10 * scale.spacing))
    true "" [Node.rect expiryBg, Node.text expiryText]

/-- The text node `phoneText`. -/
def phoneTextNode (data : DiscountData) (scale : ScaleFactors) (r : Rendered) : TextNode :=
  { x := r.margin
    y := r.footerY + mathRound (40 * scale.spacing)
    text := "للتواصل: " ++ data.phoneNumber
    fontSize := mathRound (12 * scale.font)
    fontFamily := "Almarai"
    fontStyle := "bold"
    fill := "#333"
    align := "center"
    width := r.safeWidth
    draggable := true
    name := "phoneText" }

/-- The nodes the render phase adds to the design layer, in the order of the
calls of `discountDesignLayer.add`. -/
def layerNodes (bidi : Option (String → String)) (newDate : String → DateObj)
    (data : DiscountData) (format : Format) (scale : ScaleFactors) (fitRatio : ℚ)
    (r : Rendered) : List Node :=
  [ Node.text (storeNameNode data scale r),
    Node.text (taglineNode data scale r),
    Node.text (locationNode data scale r),
    Node.text (mainTitleNode data scale r),
    badgeGroupNode data format scale r ] ++
  data.categories.enum.map
    (fun entry => categoryGroupNode bidi data scale fitRatio r entry.1 entry.2) ++
  [ Node.rect (descBgNode scale r),
    Node.text (descTitleNode bidi scale r),
    Node.text (descContentNode bidi data scale r),
    Node.rect (qrSectionBgNode scale r),
    Node.text (qrTextNode scale r) ] ++
  (qrSlots data scale r).flatMap QrSlot.syncNodes ++
  [ Node.text (socialTextNode data scale r),
    Node.rect (footerBgNode scale r),
    expiryGroupNode newDate data format scale fitRatio r,
    Node.text (phoneTextNode data scale r) ]

/-- The images whose `onload` callback adds a node to the design layer later:
the logo, then the QR images. -/
def pendingImages (data : DiscountData) (format : Format) (scale : ScaleFactors)
    (r : Rendered) : List ImageNode :=
  (if truthy data.design.logoImage then
    [ { src := data.design.logoImage.getD ""
        x := (format.width - mathRound (data.design.logoWidth * scale.element)) / 2
        y := r.margin
        width := mathRound (data.design.logoWidth * scale.element)
        height := mathRound (data.design.logoHeight * scale.element)
        draggable := true
        name := "logo" } ]
  else []) ++
  (qrSlots data scale r).flatMap QrSlot.pending

/-- The module-level variables `createDiscountDesign` works on.  The design
layer is `none` before the tool is initialised, otherwise it holds its
children other than the transformer. -/
structure ToolState where
  discountData : DiscountData
  currentDiscountFormat : String
  discountDesignLayer : Option (List Node)
  selectedDiscountElement : Option String

/-- One call of `createDiscountDesign` as a step on the module state: nothing
happens without a design layer; otherwise the layer is cleared, the selection
is reset and the nodes of the render phase are added.  A missing format makes
the call throw, here `none`. -/
def createDiscountDesignStep (konva : TextEngine) (bidi : Option (String → String))
    (newDate : String → DateObj) (s : ToolState) : Option ToolState :=
  match s.discountDesignLayer with
  | none => some s
  | some _ =>
    let data := s.discountData
    match discountFormats s.currentDiscountFormat with
    | none => none
    | some format =>
      let fit := fitPhase konva data format
      let r := renderPhase konva bidi data s.currentDiscountFormat format fit.scale fit.fitRatio
      some
        { s with
          selectedDiscountElement := none
          discountDesignLayer :=
            some (layerNodes bidi newDate data format fit.scale fit.fitRatio r) }

/-! ## Binary64 arithmetic of the scale factors -/

/-- Rounding of a rational to the nearest integer, a tie going to the even
one. -/
def roundHalfEven (x : ℚ) : ℤ :=
  if x - ⌊x⌋ < 1 / 2 then ⌊x⌋
  else if 1 / 2 < x - ⌊x⌋ then ⌊x⌋ + 1
  else if ⌊x⌋ % 2 = 0 then ⌊x⌋ else ⌊x⌋ + 1

/-- The binary64 number nearest to a positive rational: a significand of 53
bits at the exponent of the number, a tie going to the even significand.  The
exponent is not bounded, so neither overflow nor subnormal numbers appear;
none occurs at canvas sizes. -/
def binary64OfPos (x : ℚ) : ℚ :=
  let ulp : ℚ := 2 ^ (Int.log 2 x - 52)
  (roundHalfEven (x / ulp) : ℚ) * ulp

/-- The binary64 number nearest to a rational: the result of a JavaScript
division or multiplication whose exact value is the rational. -/
def toBinary64 (x : ℚ) : ℚ :=
  if 0 < x then binary64OfPos x
  else if x < 0 then -binary64OfPos (-x)
  else 0

/-- The function `getSmartScaleFactors` in the arithmetic of JavaScript
numbers: the width and height of the format are binary64 numbers and every
quotient and product is rounded to binary64. -/
def getSmartScaleFactors64 (format : Format) : ScaleFactors :=
  let baseWidth : ℚ := 500
  let baseHeight : ℚ := 900
  let widthScale := toBinary64 (format.width / baseWidth)
  let heightScale := toBinary64 (format.height / baseHeight)
  let minScale := min widthScale heightScale
  let fontScale := toBinary64 (minScale * toBinary64 1.1)
  { width := widthScale
    height := heightScale
    font := fontScale
    spacing := minScale
    element := minScale }

/-! ## createDiscountDesign with a text engine that can throw -/

/-- A text engine whose `height()` can throw: `Except.error` carries the
message of the exception. -/
abbrev ThrowingEngine := TextSpec → Except String ℚ

/-- The helper `measureText` over a text engine that can throw.  The helper
has no `try`, so it returns what `height()` returns and an exception leaves
it. -/
def measureTextE (konva : ThrowingEngine) (text : String) (fontSize : ℚ)
    (fontFamily fontStyle : String) (maxWidth : ℚ) : Except String ℚ :=
  konva
    { text := text
      fontSize := fontSize
      fontFamily := fontFamily
      fontStyle := fontStyle
      width := maxWidth
      lineHeight := 1.3 }

/-- The heights of a text engine that can throw, read where it did not
throw. -/
def heightsOf (konva : ThrowingEngine) : TextEngine := fun spec =>
  match konva spec with
  | Except.ok height => height
  | Except.error _ => 0

/-- The measure phase over a text engine that can throw: the five calls of
`measureText` in source order, the first exception ending the phase; the
arithmetic that follows cannot throw. -/
def measurePhaseE (konva : ThrowingEngine) (data : DiscountData) (format : Format)
    (scale : ScaleFactors) : Except String Measured := do
  let margin := mathRound (30 * scale.spacing)
  let padding := mathRound (10 * scale.spacing)
  let safeWidth := format.width - (margin * 2)
  let _ ← measureTextE konva data.storeName (mathRound (32 * scale.font)) "Almarai, Arial" "bold"
    safeWidth
  let _ ← measureTextE konva data.tagline (mathRound (15 * scale.font)) "Almarai" "bold" safeWidth
  let _ ← measureTextE konva data.location (mathRound (13 * scale.font)) "Almarai" "normal"
    safeWidth
  let _ ← measureTextE konva data.mainTitle (mathRound (24 * scale.font)) "Almarai" "bold"
    safeWidth
  let _ ← measureTextE konva data.description (mathRound (11 * scale.font)) "Almarai" "normal"
    (safeWidth - (padding * 2))
  pure (measurePhase (heightsOf konva) data format scale)

/-- The function `createDiscountDesign` over a text engine that can throw:
measure, fit, then the height reads of the render phase in source order (the
four header nodes, the description, the social line). -/
def createDiscountDesignE (konva : ThrowingEngine) (bidi : Option (String → String))
    (data : DiscountData) (currentDiscountFormat : String) : Except String Rendered :=
  match discountFormats currentDiscountFormat with
  | none => Except.error "TypeError"
  | some format => do
    let initial := getSmartScaleFactors format
    let measured ← measurePhaseE konva data format initial
    let ratio := fitRatio measured.totalRequiredHeight format.height
    let scale := applyFitRatio initial ratio
    let r := renderPhase (heightsOf konva) bidi data currentDiscountFormat format scale ratio
    let _ ← konva (storeNameNode data scale r).spec
    let _ ← konva (taglineNode data scale r).spec
    let _ ← konva (locationNode data scale r).spec
    let _ ← konva (mainTitleNode data scale r).spec
    let _ ← measureTextE konva data.description (mathRound (11 * scale.font)) "Almarai" "normal"
      (r.safeWidth - (r.padding * 2))
    let _ ← konva (socialTextNode data scale r).spec
    pure r

end DiscountTool

/-! ## Language system (js/i18n.js) -/

namespace I18nSystem

/-- The fields of the `I18nSystem` object together with what `setLanguage`
writes outside it: the item `marketing-tools-language` of `localStorage`,
the `lang` and `dir` attributes of the document element and the `rtl` class
of the body. -/
structure State where
  currentLanguage : String
  direction : String
  storedLanguage : Option String
  documentLang : String
  documentDir : String
  bodyRtl : Bool
  deriving DecidableEq

/-- The test `value && ['en', 'ar'].includes(value)` on a value that may be
`null`. -/
def isSupported : Option String → Bool
  | none => false
  | some value => value != "" && ["en", "ar"].contains value

/-- The method `setLanguage`, as far as it changes the state above. -/
def setLanguage (lang : String) (s : State) : State :=
  let direction := if lang = "ar" then "rtl" else "ltr"
  { s with
    currentLanguage := lang
    direction := direction
    documentLang := lang
    documentDir := direction
    bodyRtl := decide (lang = "ar")
    storedLanguage := some lang }

/-- The method `detectLanguage`; `langParam` is `urlParams.get('lang')`. -/
def detectLanguage (langParam : Option String) (s : State) : State :=
  if isSupported s.storedLanguage then
    setLanguage (s.storedLanguage.getD "") s
  else if isSupported langParam then
    setLanguage (langParam.getD "") s
  else
    setLanguage "ar" s

/-- The constructor followed by `init`: the fields are set to English and
left-to-right, then `detectLanguage` runs on the page as it is found. -/
def construct (langParam : Option String) (page : State) : State :=
  detectLanguage langParam { page with currentLanguage := "en", direction := "ltr" }

/-- The method `toggleLanguage`. -/
def toggleLanguage (s : State) : State :=
  let newLang := if s.currentLanguage = "en" then "ar" else "en"
  setLanguage newLang s

/-- The method `getCurrentLanguage`. -/
def getCurrentLanguage (s : State) : String := s.currentLanguage

/-- The method `isRTL`. -/
def isRTL (s : State) : Bool := s.direction == "rtl"

/-- The states reached from construction by calls of `setLanguage` and
`toggleLanguage`. -/
inductive Reachable : State → Prop where
  | construct (langParam : Option String) (page : State) :
      Reachable (I18nSystem.construct langParam page)
  | setLanguage (lang : String) (s : State) :
      Reachable s → Reachable (I18nSystem.setLanguage lang s)
  | toggleLanguage (s : State) : Reachable s → Reachable (I18nSystem.toggleLanguage s)

end I18nSystem

/-! ## Template engine (js/template-engine.js) -/

namespace TemplateEngine

/-- The values a helper receives from `parseHelperParameters`: what
`parseValue` returns for a token, a variable reference giving any value of
the data. -/
inductive Value where
  | undefined : Value
  | null : Value
  | bool (b : Bool) : Value
  | number (q : ℚ) : Value
  | nan : Value
  | string (s : String) : Value
  | object : Value
  deriving DecidableEq

/-- The conversion `Boolean(value)`. -/
def toBoolean : Value → Bool
  | Value.undefined => false
  | Value.null => false
  | Value.bool b => b
  | Value.number q => decide (q ≠ 0)
  | Value.nan => false
  | Value.string s => s != ""
  | Value.object => true

/-- The default helper `and`, on the list of its arguments. -/
def andHelper (args : List Value) : Bool := args.dropLast.all toBoolean

/-- The default helper `or`, on the list of its arguments. -/
def orHelper (args : List Value) : Bool := args.dropLast.any toBoolean

end TemplateEngine

/-! ## QR generator (js/qr-generator.js) -/

namespace QRGenerator

/-- The characters `String.prototype.trim` removes: white space and line
terminators. -/
def isWhiteSpace (c : Char) : Bool :=
  let n := c.toNat
  n = 0x0009 || n = 0x000A || n = 0x000B || n = 0x000C || n = 0x000D || n = 0x0020 ||
    n = 0x00A0 || n = 0x1680 || (0x2000 ≤ n && n ≤ 0x200A) || n = 0x2028 || n = 0x2029 ||
    n = 0x202F || n = 0x205F || n = 0x3000 || n = 0xFEFF

/-- The method `trim`. -/
def trim (s : String) : String :=
  String.mk (((s.toList.dropWhile isWhiteSpace).reverse.dropWhile isWhiteSpace).reverse)

/-- The call `number.replace(/[^0-9+]/g, '')`. -/
def cleanNumber (number : String) : String :=
  String.mk (number.toList.filter (fun c => c.isDigit || c = '+'))

/-- The values of the four input fields `generateQRCode` reads. -/
structure Inputs where
  url : String
  whatsappNumber : String
  whatsappMessage : String
  text : String

/-- The function `generateQRCode` up to its call of `createQRCode`: the pair
`(qrData, label)` handed over, or `none` when it returns after the warning
for a missing value.  `encodeURIComponent` is the built-in. -/
def generateQRCode (encodeURIComponent : String → String) (currentQRType : String)
    (inputs : Inputs) : Option (String × String) :=
  if currentQRType = "url" then
    let url := trim inputs.url
    if url = "" then none
    else some (url, "Website URL")
  else if currentQRType = "whatsapp" then
    let number := trim inputs.whatsappNumber
    if number = "" then none
    else
      let message := trim inputs.whatsappMessage
      let cleaned := cleanNumber number
      some
        ("https://wa.me/" ++ cleaned ++
            (if message != "" then "?text=" ++ encodeURIComponent message else ""),
          "WhatsApp Link")
  else if currentQRType = "text" then
    let text := trim inputs.text
    if text = "" then none
    else some (text, "Plain Text")
  else some ("", "")

end QRGenerator

namespace DiscountTool

/-! ## Fit ratio and scale factors -/

/-- C1: the fit step resolves `fitRatio` as exactly 1.0 when the available
height is at least the measured total, and as `max (available / total) 0.65`
otherwise; the fit step of `createDiscountDesign` applies this to the total of
the measure phase and to `format.height`. -/
theorem fitRatio_formula :
    (∀ total avail : ℚ,
      fitRatio total avail = if avail ≥ total then 1.0 else max (avail / total) 0.65) ∧
    (∀ (konva : TextEngine) (data : DiscountData) (format : Format),
      (fitPhase konva data format).fitRatio =
        fitRatio
          (measurePhase konva data format (getSmartScaleFactors format)).totalRequiredHeight
          format.height) := by
  refine ⟨fun total avail => ?_, fun _ _ _ => rfl⟩
  unfold fitRatio
  by_cases h : total > avail
  · rw [if_pos h, if_neg (not_le.mpr h)]
  · rw [if_neg h, if_pos (not_lt.mp h)]

/-- C2: for every measured total and every available height (a canvas height,
so non-negative), the resolved `fitRatio` lies in the closed interval
from 0.65 to 1.0. -/
theorem fitRatio_bounds (total avail : ℚ) (havail : 0 ≤ avail) :
    0.65 ≤ fitRatio total avail ∧ fitRatio total avail ≤ 1.0 := by
  unfold fitRatio
  by_cases h : total > avail
  · rw [if_pos h]
    have hpos : 0 < total := lt_of_le_of_lt havail h
    refine ⟨le_max_right _ _, max_le ?_ (by norm_num)⟩
    rw [div_le_iff₀ hpos]
    norm_num
    exact le_of_lt h
  · rw [if_neg h]
    norm_num

/-- Witness of C2: content of 2000 px on a 900 px canvas is held at the floor. -/
theorem fitRatio_bounds_witness :
    (0 : ℚ) ≤ 900 ∧ (0.65 ≤ fitRatio 2000 900 ∧ fitRatio 2000 900 ≤ 1.0) :=
  ⟨by norm_num, fitRatio_bounds 2000 900 (by norm_num)⟩

/-- C3: for a format of width `w` and height `h`, `getSmartScaleFactors`
returns width `w/500`, height `h/900`, font `1.1 * min (w/500) (h/900)`, and
both spacing and element `min (w/500) (h/900)`. -/
theorem getSmartScaleFactors_formula (format : Format) :
    getSmartScaleFactors format =
      { width := format.width / 500
        height := format.height / 900
        font := 1.1 * min (format.width / 500) (format.height / 900)
        spacing := min (format.width / 500) (format.height / 900)
        element := min (format.width / 500) (format.height / 900) } := by
  simp only [getSmartScaleFactors, mul_comm]

/-- C4: when the render phase begins, font, spacing and element are the
initial factors of `getSmartScaleFactors` times `fitRatio` (one factor of the
ratio), width and height are the initial factors unchanged, and these are the
scale factors `createDiscountDesign` hands to the render phase. -/
theorem fit_scaling_applied_once (konva : TextEngine) (data : DiscountData) (format : Format) :
    let initial := getSmartScaleFactors format
    let fit := fitPhase konva data format
    fit.scale.font = initial.font * fit.fitRatio ∧
    fit.scale.spacing = initial.spacing * fit.fitRatio ∧
    fit.scale.element = initial.element * fit.fitRatio ∧
    fit.scale.width = initial.width ∧
    fit.scale.height = initial.height ∧
    (∀ (bidi : Option (String → String)) (key : String),
      discountFormats key = some format →
      createDiscountDesign konva bidi data key =
        some (renderPhase konva bidi data key format fit.scale fit.fitRatio)) := by
  refine ⟨rfl, rfl, rfl, rfl, rfl, ?_⟩
  intro bidi key hkey
  simp only [createDiscountDesign, hkey]

/-- Witness of C4 on the story format with the initial document. -/
theorem fit_scaling_applied_once_witness :
    discountFormats "story" = some ⟨"Instagram Story", 500, 900, "1080×1920 px (9:16)"⟩ ∧
    createDiscountDesign singleLineEngine none defaultDiscountData "story" =
      some (renderPhase singleLineEngine none defaultDiscountData "story"
        ⟨"Instagram Story", 500, 900, "1080×1920 px (9:16)"⟩
        (fitPhase singleLineEngine defaultDiscountData
          ⟨"Instagram Story", 500, 900, "1080×1920 px (9:16)"⟩).scale
        (fitPhase singleLineEngine defaultDiscountData
          ⟨"Instagram Story", 500, 900, "1080×1920 px (9:16)"⟩).fitRatio) :=
  ⟨rfl,
    (fit_scaling_applied_once singleLineEngine defaultDiscountData
      ⟨"Instagram Story", 500, 900, "1080×1920 px (9:16)"⟩).2.2.2.2.2 none "story" rfl⟩

/-! ## Measure phase and category grid -/

/-- C5 (the code departs from the claim): in the wide format with the four
initial categories the measure phase counts two rows of categories, 85 px,
whereas the claimed formula with the four columns of the wide format gives one
row, 39 px, which is also the extent of the grid the render phase lays out
(its `categoriesHeight` less the trailing row gap) at the same scale. -/
theorem measure_categories_ignores_wide_columns :
    ∃ format : Format, discountFormats "wide" = some format ∧
      (fitPhase singleLineEngine defaultDiscountData format).measured.categoriesTotalHeight = 85 ∧
      mathCeil ((defaultDiscountData.categories.length : ℚ) / (categoryCols "wide" : ℚ)) *
          (mathRound (70 * (getSmartScaleFactors format).spacing) +
            mathRound (12 * (getSmartScaleFactors format).spacing)) -
        mathRound (12 * (getSmartScaleFactors format).spacing) = 39 ∧
      (fitPhase singleLineEngine defaultDiscountData format).scale = getSmartScaleFactors format ∧
      (renderPhase singleLineEngine none defaultDiscountData "wide" format
          (getSmartScaleFactors format) 1).categoriesHeight -
        (renderPhase singleLineEngine none defaultDiscountData "wide" format
          (getSmartScaleFactors format) 1).scaledCategoryGap = 39 := by
  refine ⟨⟨"Wide Banner", 900, 500, "1920×1080 px (16:9)"⟩, rfl, ?_, ?_, ?_, ?_⟩
  · norm_num [fitPhase, measurePhase, getSmartScaleFactors, defaultDiscountData, mathRound,
      mathCeil]
  · norm_num [getSmartScaleFactors, defaultDiscountData, categoryCols, mathRound, mathCeil]
  · norm_num [fitPhase, fitRatio, applyFitRatio, measurePhase, getSmartScaleFactors,
      defaultDiscountData, mathRound, mathCeil, measureText, singleLineEngine, truthy]
  · norm_num [renderPhase, getSmartScaleFactors, defaultDiscountData, categoryCols, mathRound,
      mathCeil]

/-- C6: the render phase places the category with index `i` in column
`i mod cols` and row `floor (i / cols)`, with `cols` 4 in the wide format and
2 otherwise; four categories fill four columns of one row in the wide format
and two columns of two rows in the story format. -/
theorem category_grid_placement :
    (∀ key : String, categoryCols key = if key = "wide" then 4 else 2) ∧
    (∀ (konva : TextEngine) (bidi : Option (String → String)) (data : DiscountData)
        (key : String) (format : Format) (scale : ScaleFactors) (ratio : ℚ) (i : ℕ),
      let r := renderPhase konva bidi data key format scale ratio
      r.categoryCols = categoryCols key ∧
      categoryPosition r i =
        (r.margin + ((i % categoryCols key : ℕ) : ℚ) * (r.categoryWidth + r.scaledCategoryGap),
          r.categoriesY + ((i / categoryCols key : ℕ) : ℚ) *
            (r.scaledCategoryRowHeight + r.scaledCategoryGap))) ∧
    (List.range 4).map
        (fun i => (categoryCol (categoryCols "wide") i, categoryRow (categoryCols "wide") i)) =
      [(0, 0), (1, 0), (2, 0), (3, 0)] ∧
    (List.range 4).map
        (fun i => (categoryCol (categoryCols "story") i, categoryRow (categoryCols "story") i)) =
      [(0, 0), (1, 0), (0, 1), (1, 1)] := by
  have hrow : ∀ c i : ℕ, categoryRow c i = ((i / c : ℕ) : ℚ) := by
    intro c i
    unfold categoryRow mathFloor
    rw [Rat.floor_natCast_div_natCast]
    norm_cast
  refine ⟨fun _ => rfl, ?_, ?_, ?_⟩
  · intro konva bidi data key format scale ratio i
    refine ⟨rfl, ?_⟩
    simp only [categoryPosition, renderPhase, categoryCol, hrow]
  · have hwide : categoryCols "wide" = 4 := by decide
    simp only [hrow, categoryCol, hwide, List.range, List.range.loop]
    norm_num
  · have hstory : categoryCols "story" = 2 := by decide
    simp only [hrow, categoryCol, hstory, List.range, List.range.loop]
    norm_num

/-- C7: the total of the measure phase is the sum of the seven section
heights (header, badge, category grid, terms box, QR grid, social line,
footer), six inter-section gaps of `round (25 * spacing)` and the top and
bottom margins of `round (30 * spacing)` each. -/
theorem total_required_height_formula (konva : TextEngine) (data : DiscountData)
    (format : Format) (scale : ScaleFactors) :
    let m := measurePhase konva data format scale
    m.totalRequiredHeight =
      (m.headerTotalHeight + m.badgeHeight + m.categoriesTotalHeight + m.termsTotalHeight +
          m.qrSectionHeight + m.socialHeight + m.footerHeight) +
        6 * mathRound (25 * scale.spacing) + 2 * mathRound (30 * scale.spacing) := by
  simp only [measurePhase]
  ring

/-! ## Render cursor -/

/-- Advance of the cursor over the terms box in the render phase. -/
theorem renderPhase_qrY (konva : TextEngine) (bidi : Option (String → String))
    (data : DiscountData) (key : String) (format : Format) (scale : ScaleFactors) (ratio : ℚ) :
    (renderPhase konva bidi data key format scale ratio).qrY =
      (renderPhase konva bidi data key format scale ratio).termsY +
        (renderPhase konva bidi data key format scale ratio).termsBoxHeight +
        mathRound (20 * scale.spacing) := by
  simp only [renderPhase]
  ring

/-- The fitted spacing of the story format with the initial document. -/
theorem story_default_fitted_spacing :
    (fitPhase singleLineEngine defaultDiscountData
      ⟨"Instagram Story", 500, 900, "1080×1920 px (9:16)"⟩).scale.spacing = 1 := by
  norm_num [fitPhase, fitRatio, applyFitRatio, measurePhase, getSmartScaleFactors,
    defaultDiscountData, mathRound, mathCeil, measureText, singleLineEngine, truthy]

/-- The cursor of the render phase starts at the scaled top margin
`round (30 * spacing)`; after the header (its last node being the main title)
and after the badge it advances by the consumed height plus
`round (25 * spacing)`; after the category grid by `categoriesHeight`, which
is `ceil (n / cols)` rows of row height plus row gap, plus
`round (20 * spacing)`; after the terms box by the box height plus
`round (20 * spacing)`; after the QR section by its height plus
`round (15 * spacing)`. -/
theorem render_cursor_advances (konva : TextEngine) (bidi : Option (String → String))
    (data : DiscountData) (key : String) (format : Format) (scale : ScaleFactors) (ratio : ℚ) :
    let r := renderPhase konva bidi data key format scale ratio
    r.startY = mathRound (30 * scale.spacing) ∧
    r.badgeY =
      r.mainTitleY +
        nodeHeight konva data.mainTitle (mathRound (24 * scale.font)) "Almarai" "bold"
          r.safeWidth 1.3 +
        mathRound (25 * scale.spacing) ∧
    r.categoriesY = r.badgeY + r.scaledBadgeHeight + mathRound (25 * scale.spacing) ∧
    r.categoriesHeight =
      mathCeil ((data.categories.length : ℚ) / (categoryCols key : ℚ)) *
        (mathRound (70 * scale.spacing) + mathRound (12 * scale.spacing)) ∧
    r.termsY = r.categoriesY + r.categoriesHeight + mathRound (20 * scale.spacing) ∧
    r.qrY = r.termsY + r.termsBoxHeight + mathRound (20 * scale.spacing) ∧
    r.socialY = r.qrY + r.qrSectionRealHeight + mathRound (15 * scale.spacing) := by
  refine ⟨rfl, ?_, ?_, rfl, ?_, ?_, ?_⟩ <;> simp only [renderPhase] <;> ring

/-- C8 (the code departs from the claim): in the story format with the
initial document the fitted spacing is 1 and the gap the measure phase counts
between sections is 25 px, yet the cursor of the render phase does not advance
by the consumed height plus that gap after every section: after the category
grid (whose `categoriesHeight` of 164 px already holds a trailing row gap,
against 152 px measured) it adds 20 px, after the terms box 20 px and after
the QR section 15 px. -/
theorem render_cursor_gaps_differ_from_measure :
    ∃ format : Format, discountFormats "story" = some format ∧
      let fit := fitPhase singleLineEngine defaultDiscountData format
      let r := renderPhase singleLineEngine none defaultDiscountData "story" format
        fit.scale fit.fitRatio
      let sectionGap := mathRound (25 * fit.scale.spacing)
      fit.measured.sectionGap = sectionGap ∧
      sectionGap = 25 ∧
      fit.measured.categoriesTotalHeight = 152 ∧
      r.categoriesHeight = 164 ∧
      r.termsY = r.categoriesY + r.categoriesHeight + 20 ∧
      r.qrY = r.termsY + r.termsBoxHeight + 20 ∧
      r.socialY = r.qrY + r.qrSectionRealHeight + 15 ∧
      ¬ (r.startY = mathRound (30 * fit.scale.spacing) ∧
        r.badgeY =
          r.mainTitleY +
            nodeHeight singleLineEngine defaultDiscountData.mainTitle
              (mathRound (24 * fit.scale.font)) "Almarai" "bold" r.safeWidth 1.3 +
            sectionGap ∧
        r.categoriesY = r.badgeY + r.scaledBadgeHeight + sectionGap ∧
        r.termsY = r.categoriesY + r.categoriesHeight + sectionGap ∧
        r.qrY = r.termsY + r.termsBoxHeight + sectionGap ∧
        r.socialY = r.qrY + r.qrSectionRealHeight + sectionGap) := by
  refine ⟨⟨"Instagram Story", 500, 900, "1080×1920 px (9:16)"⟩, rfl, ?_⟩
  intro fit r sectionGap
  have hs : fit.scale.spacing = 1 := story_default_fitted_spacing
  have h15 : mathRound (15 * 1) = 15 := by norm_num [mathRound]
  have h20 : mathRound (20 * 1) = 20 := by norm_num [mathRound]
  have h25 : mathRound (25 * 1) = 25 := by norm_num [mathRound]
  have h70 : mathRound (70 * 1) = 70 := by norm_num [mathRound]
  have h12 : mathRound (12 * 1) = 12 := by norm_num [mathRound]
  have hgap : sectionGap = 25 := by
    show mathRound (25 * fit.scale.spacing) = 25
    rw [hs, h25]
  have hcols : categoryCols "story" = 2 := by decide
  obtain ⟨-, -, -, hheight, hterms, hqr, hsocial⟩ :=
    render_cursor_advances singleLineEngine none defaultDiscountData "story"
      ⟨"Instagram Story", 500, 900, "1080×1920 px (9:16)"⟩ fit.scale fit.fitRatio
  rw [hs, h20] at hterms hqr
  rw [hs, h15] at hsocial
  rw [hs, h70, h12, hcols] at hheight
  have hrows : r.categoriesHeight = 164 := by
    rw [show r.categoriesHeight = _ from hheight]
    norm_num [defaultDiscountData, mathCeil]
  refine ⟨?_, hgap, ?_, hrows, hterms, hqr, hsocial, ?_⟩
  · show fit.measured.sectionGap = mathRound (25 * fit.scale.spacing)
    rw [hs]
    norm_num [fit, fitPhase, measurePhase, getSmartScaleFactors, mathRound]
  · norm_num [fit, fitPhase, measurePhase, getSmartScaleFactors, defaultDiscountData, mathRound,
      mathCeil]
  · rintro ⟨-, -, -, -, hclaim, -⟩
    rw [hgap] at hclaim
    have hqr' : r.qrY = r.termsY + r.termsBoxHeight + 20 := hqr
    linarith

/-! ## Badge bounds -/

/-- One step of the `Math.min` loop does not depend on the order of two
arguments. -/
theorem minStep_comm (lo x y : JSNum) (hx : x.isNaN = false) (hy : y.isNaN = false) :
    (if y.lt (if x.lt lo then x else lo) then y else (if x.lt lo then x else lo)) =
      (if x.lt (if y.lt lo then y else lo) then x else (if y.lt lo then y else lo)) := by
  cases lo <;> cases x <;> cases y <;> simp_all [JSNum.lt, JSNum.isNaN] <;>
    split_ifs <;> simp_all <;> omega

/-- One step of the `Math.max` loop does not depend on the order of two
arguments. -/
theorem maxStep_comm (hi x y : JSNum) (hx : x.isNaN = false) (hy : y.isNaN = false) :
    (if (if hi.lt x then x else hi).lt y then y else (if hi.lt x then x else hi)) =
      (if (if hi.lt y then y else hi).lt x then x else (if hi.lt y then y else hi)) := by
  cases hi <;> cases x <;> cases y <;> simp_all [JSNum.lt, JSNum.isNaN] <;>
    split_ifs <;> simp_all <;> omega

/-- The `Math.min` loop gives the same result on a permutation. -/
theorem mathMinFrom_perm {xs ys : List JSNum} (h : xs.Perm ys) :
    ∀ lo : JSNum, mathMinFrom lo xs = mathMinFrom lo ys := by
  induction h with
  | nil => intro lo; rfl
  | cons x _ ih =>
    intro lo
    simp only [mathMinFrom]
    by_cases hx : x.isNaN = true
    · rw [if_pos hx, if_pos hx]
    · rw [if_neg hx, if_neg hx]
      exact ih _
  | swap x y l =>
    intro lo
    simp only [mathMinFrom]
    by_cases hx : x.isNaN = true <;> by_cases hy : y.isNaN = true <;> simp only [hx, hy, if_true]
    · simp
    · simp
    · simp only [Bool.not_eq_true] at hx hy
      simp only [Bool.false_eq_true, if_false]
      rw [minStep_comm lo x y hx hy]
  | trans _ _ ih₁ ih₂ => intro lo; rw [ih₁, ih₂]

/-- The `Math.max` loop gives the same result on a permutation. -/
theorem mathMaxFrom_perm {xs ys : List JSNum} (h : xs.Perm ys) :
    ∀ hi : JSNum, mathMaxFrom hi xs = mathMaxFrom hi ys := by
  induction h with
  | nil => intro hi; rfl
  | cons x _ ih =>
    intro hi
    simp only [mathMaxFrom]
    by_cases hx : x.isNaN = true
    · rw [if_pos hx, if_pos hx]
    · rw [if_neg hx, if_neg hx]
      exact ih _
  | swap x y l =>
    intro hi
    simp only [mathMaxFrom]
    by_cases hx : x.isNaN = true <;> by_cases hy : y.isNaN = true <;> simp only [hx, hy, if_true]
    · simp
    · simp
    · simp only [Bool.not_eq_true] at hx hy
      simp only [Bool.false_eq_true, if_false]
      rw [maxStep_comm hi x y hx hy]
  | trans _ _ ih₁ ih₂ => intro hi; rw [ih₁, ih₂]

/-- On integers the `Math.min` loop is a left fold of `min`. -/
theorem mathMinFrom_fin (vs : List ℤ) :
    ∀ a : ℤ, mathMinFrom (JSNum.fin a) (vs.map JSNum.fin) = JSNum.fin (vs.foldl min a) := by
  induction vs with
  | nil => intro a; rfl
  | cons v vs ih =>
    intro a
    simp only [List.map_cons, mathMinFrom, JSNum.isNaN, JSNum.lt, Bool.false_eq_true, if_false,
      List.foldl_cons, decide_eq_true_eq]
    by_cases h : v < a
    · rw [if_pos h, ih, min_eq_right (le_of_lt h)]
    · rw [if_neg h, ih, min_eq_left (not_lt.mp h)]

/-- On integers the `Math.max` loop is a left fold of `max`. -/
theorem mathMaxFrom_fin (vs : List ℤ) :
    ∀ a : ℤ, mathMaxFrom (JSNum.fin a) (vs.map JSNum.fin) = JSNum.fin (vs.foldl max a) := by
  induction vs with
  | nil => intro a; rfl
  | cons v vs ih =>
    intro a
    simp only [List.map_cons, mathMaxFrom, JSNum.isNaN, JSNum.lt, Bool.false_eq_true, if_false,
      List.foldl_cons, decide_eq_true_eq]
    by_cases h : a < v
    · rw [if_pos h, ih, max_eq_right (le_of_lt h)]
    · rw [if_neg h, ih, max_eq_left (not_lt.mp h)]

/-- A left fold of `min` returns a lower bound that is attained. -/
theorem foldl_min_spec (vs : List ℤ) :
    ∀ a : ℤ, vs.foldl min a ∈ a :: vs ∧ ∀ v ∈ a :: vs, vs.foldl min a ≤ v := by
  induction vs with
  | nil => intro a; simp
  | cons w vs ih =>
    intro a
    obtain ⟨hmem, hle⟩ := ih (min a w)
    simp only [List.foldl_cons]
    refine ⟨?_, ?_⟩
    · rcases List.mem_cons.mp hmem with h | h
      · rw [h]
        rcases min_choice a w with h' | h' <;> rw [h'] <;> simp
      · simp [h]
    · intro v hv
      have hm := hle (min a w) (List.mem_cons_self _ _)
      rcases List.mem_cons.mp hv with h | h
      · rw [h]; exact le_trans hm (min_le_left _ _)
      · rcases List.mem_cons.mp h with h | h
        · rw [h]; exact le_trans hm (min_le_right _ _)
        · exact hle v (List.mem_cons_of_mem _ h)

/-- A left fold of `max` returns an upper bound that is attained. -/
theorem foldl_max_spec (vs : List ℤ) :
    ∀ a : ℤ, vs.foldl max a ∈ a :: vs ∧ ∀ v ∈ a :: vs, v ≤ vs.foldl max a := by
  induction vs with
  | nil => intro a; simp
  | cons w vs ih =>
    intro a
    obtain ⟨hmem, hle⟩ := ih (max a w)
    simp only [List.foldl_cons]
    refine ⟨?_, ?_⟩
    · rcases List.mem_cons.mp hmem with h | h
      · rw [h]
        rcases max_choice a w with h' | h' <;> rw [h'] <;> simp
      · simp [h]
    · intro v hv
      have hm := hle (max a w) (List.mem_cons_self _ _)
      rcases List.mem_cons.mp hv with h | h
      · rw [h]; exact le_trans (le_max_left _ _) hm
      · rcases List.mem_cons.mp h with h | h
        · rw [h]; exact le_trans (le_max_right _ _) hm
        · exact hle v (List.mem_cons_of_mem _ h)

/-- C9: for a non-empty category list with integer discounts the badge text
is the template filled with the least and then the greatest discount of the
list, and every permutation of a category list gives the same badge text. -/
theorem badge_shows_min_max (bidi : Option (String → String)) (categories : List Category) :
    (∀ vs : List ℤ, categories ≠ [] →
      categories.map (fun c => c.discount) = vs.map JSNum.fin →
      ∃ lo hi : ℤ, lo ∈ vs ∧ hi ∈ vs ∧ (∀ v ∈ vs, lo ≤ v ∧ v ≤ hi) ∧
        badgeText bidi categories =
          processArabicText bidi
            ("من " ++ toString lo ++ "% إلى " ++ toString hi ++ "% خصم")) ∧
    (∀ categories' : List Category, categories.Perm categories' →
      badgeText bidi categories' = badgeText bidi categories) := by
  refine ⟨?_, ?_⟩
  · intro vs hne hfin
    cases vs with
    | nil =>
      exfalso
      apply hne
      simpa using hfin
    | cons a vs =>
      obtain ⟨hminmem, hminle⟩ := foldl_min_spec vs a
      obtain ⟨hmaxmem, hmaxle⟩ := foldl_max_spec vs a
      refine ⟨vs.foldl min a, vs.foldl max a, hminmem, hmaxmem,
        fun v hv => ⟨hminle v hv, hmaxle v hv⟩, ?_⟩
      have hmin : mathMin ((a :: vs).map JSNum.fin) = JSNum.fin (vs.foldl min a) := by
        simp only [mathMin, List.map_cons, mathMinFrom, JSNum.isNaN, JSNum.lt,
          Bool.false_eq_true, if_false, if_true]
        exact mathMinFrom_fin vs a
      have hmax : mathMax ((a :: vs).map JSNum.fin) = JSNum.fin (vs.foldl max a) := by
        simp only [mathMax, List.map_cons, mathMaxFrom, JSNum.isNaN, JSNum.lt,
          Bool.false_eq_true, if_false, if_true]
        exact mathMaxFrom_fin vs a
      simp only [badgeText, hfin, hmin, hmax, badgeTemplate, JSNum.toJSString]
  · intro categories' hperm
    have hp := (hperm.map (fun c => c.discount)).symm
    simp only [badgeText, mathMin, mathMax]
    rw [mathMinFrom_perm hp, mathMaxFrom_perm hp]

/-- Witness of C9: discounts 10 and 90 in either order. -/
theorem badge_shows_min_max_witness :
    ([⟨"A", JSNum.fin 10⟩, ⟨"B", JSNum.fin 90⟩] : List Category) ≠ [] ∧
    ([⟨"A", JSNum.fin 10⟩, ⟨"B", JSNum.fin 90⟩] : List Category).map (fun c => c.discount) =
      [10, 90].map JSNum.fin ∧
    ([⟨"A", JSNum.fin 10⟩, ⟨"B", JSNum.fin 90⟩] : List Category).Perm
      [⟨"B", JSNum.fin 90⟩, ⟨"A", JSNum.fin 10⟩] ∧
    (∃ lo hi : ℤ, lo ∈ [10, 90] ∧ hi ∈ [10, 90] ∧ (∀ v ∈ [10, 90], lo ≤ v ∧ v ≤ hi) ∧
      badgeText none [⟨"A", JSNum.fin 10⟩, ⟨"B", JSNum.fin 90⟩] =
        processArabicText none
          ("من " ++ toString lo ++ "% إلى " ++ toString hi ++ "% خصم")) ∧
    badgeText none [⟨"B", JSNum.fin 90⟩, ⟨"A", JSNum.fin 10⟩] =
      badgeText none [⟨"A", JSNum.fin 10⟩, ⟨"B", JSNum.fin 90⟩] :=
  ⟨by simp, rfl, List.Perm.swap _ _ _,
    (badge_shows_min_max none [⟨"A", JSNum.fin 10⟩, ⟨"B", JSNum.fin 90⟩]).1 [10, 90]
      (by simp) rfl,
    (badge_shows_min_max none [⟨"A", JSNum.fin 10⟩, ⟨"B", JSNum.fin 90⟩]).2
      [⟨"B", JSNum.fin 90⟩, ⟨"A", JSNum.fin 10⟩] (List.Perm.swap _ _ _)⟩

/-- C10 (counterexample): with no category and the bidi library not loaded
the badge text is the template filled with `Infinity` and `-Infinity`; it
contains the word `Infinity`. -/
theorem empty_badge_shows_infinity :
    badgeText none [] = "من Infinity% إلى -Infinity% خصم" ∧
    "Infinity".toList <:+: (badgeText none []).toList := by
  refine ⟨by decide, ?_⟩
  decide

/-- C10 (amended): with no category the badge computation takes no
short cut: `Math.min()` is `Infinity`, `Math.max()` is `-Infinity`, the badge
text is `processArabicText` of the template filled with these two, and with
the bidi library not loaded it is that template, which does not contain
`NaN`. -/
theorem empty_badge_text (bidi : Option (String → String)) :
    mathMin [] = JSNum.posInf ∧ mathMax [] = JSNum.negInf ∧
    badgeText bidi [] = processArabicText bidi "من Infinity% إلى -Infinity% خصم" ∧
    badgeText none [] = "من Infinity% إلى -Infinity% خصم" ∧
    ¬ ("NaN".toList <:+: (badgeText none []).toList) := by
  refine ⟨rfl, rfl, rfl, by decide, ?_⟩
  decide

/-! ## Bidi processing -/

/-- The Arabic test in terms of the characters of the text. -/
theorem hasArabic_eq_true_iff (text : String) :
    hasArabic text = true ↔ ∃ c ∈ text.toList, 0x0600 ≤ c.toNat ∧ c.toNat ≤ 0x06FF := by
  simp only [hasArabic, List.any_eq_true, decide_eq_true_eq]

/-- Splitting never returns the empty list of lines. -/
theorem splitLines_ne_nil (cs : List Char) : splitLines cs ≠ [] := by
  cases cs with
  | nil => simp [splitLines]
  | cons c cs =>
    simp only [splitLines]
    split_ifs
    · simp
    · split <;> simp

/-- A text without a line feed is a single line. -/
theorem splitLines_of_no_newline (cs : List Char) (h : '\n' ∉ cs) : splitLines cs = [cs] := by
  induction cs with
  | nil => rfl
  | cons c cs ih =>
    have hc : c ≠ '\n' := fun hc => h (by simp [hc])
    have hcs : '\n' ∉ cs := fun hcs => h (List.mem_cons_of_mem _ hcs)
    simp only [splitLines, if_neg hc, ih hcs]

/-- The step of splitting at the first character. -/
theorem splitLines_cons (c : Char) (cs : List Char) :
    splitLines (c :: cs) =
      if c = '\n' then [] :: splitLines cs
      else
        match splitLines cs with
        | [] => [[c]]
        | line :: rest => (c :: line) :: rest := by
  rw [splitLines]

/-- Splitting distributes over a line feed between two texts. -/
theorem splitLines_append_newline (xs ys : List Char) :
    splitLines (xs ++ '\n' :: ys) = splitLines xs ++ splitLines ys := by
  induction xs with
  | nil => simp [splitLines]
  | cons c xs ih =>
    rw [List.cons_append, splitLines_cons, splitLines_cons, ih]
    by_cases hc : c = '\n'
    · rw [if_pos hc, if_pos hc, List.cons_append]
    · rw [if_neg hc, if_neg hc]
      cases hsplit : splitLines xs with
      | nil => exact absurd hsplit (splitLines_ne_nil xs)
      | cons line rest => rfl

/-- The lines of a text joined with line feeds, when no joined piece contains
a line feed. -/
theorem splitLines_intercalate_go (pieces : List String)
    (h : ∀ piece ∈ pieces, '\n' ∉ piece.toList) :
    ∀ acc : String,
      splitLines (String.intercalate.go acc "\n" pieces).toList =
        splitLines acc.toList ++ pieces.map String.toList := by
  induction pieces with
  | nil => intro acc; simp [String.intercalate.go]
  | cons piece pieces ih =>
    intro acc
    have hpiece : '\n' ∉ piece.toList := h piece (List.mem_cons_self _ _)
    have hrest : ∀ p ∈ pieces, '\n' ∉ p.toList := fun p hp => h p (List.mem_cons_of_mem _ hp)
    have hdata : (acc ++ "\n" ++ piece).toList = acc.toList ++ '\n' :: piece.toList := by
      simp [String.toList, String.data_append]
    simp only [String.intercalate.go, ih hrest, hdata, splitLines_append_newline,
      splitLines_of_no_newline _ hpiece, List.map_cons, List.append_assoc, List.singleton_append]

/-- C11: a text without a character in U+0600..U+06FF (so every pure-Latin
text, and the empty text) is returned unchanged by `processArabicText`, with
or without the bidi library. -/
theorem processArabicText_without_arabic (bidi : Option (String → String)) (text : String)
    (h : ∀ c ∈ text.toList, ¬ (0x0600 ≤ c.toNat ∧ c.toNat ≤ 0x06FF)) :
    processArabicText bidi text = text := by
  have hno : hasArabic text = false := by
    rw [← Bool.not_eq_true, hasArabic_eq_true_iff]
    rintro ⟨c, hc, hrange⟩
    exact h c hc hrange
  unfold processArabicText
  by_cases hempty : text = ""
  · rw [if_pos hempty]
  · rw [if_neg hempty, hno]
    rfl

/-- Witness of C11: a Latin text, with the bidi library reversing lines. -/
theorem processArabicText_without_arabic_witness :
    (∀ c ∈ "50% OFF".toList, ¬ (0x0600 ≤ c.toNat ∧ c.toNat ≤ 0x06FF)) ∧
    processArabicText (some (fun line => String.mk line.toList.reverse)) "50% OFF" = "50% OFF" :=
  ⟨by decide,
    processArabicText_without_arabic (some (fun line => String.mk line.toList.reverse)) "50% OFF"
      (by decide)⟩

/-- C12: for a text with a character in U+0600..U+06FF and the bidi library
loaded, `processArabicText` is the lines of the text, each reordered on its
own, joined with line feeds; when no reordered line contains a line feed the
result has the same lines in the same order, each the reordering of the
original one.  Without the library the text is returned unchanged. -/
theorem processArabicText_with_arabic (reorder : String → String) (text : String)
    (h : ∃ c ∈ text.toList, 0x0600 ≤ c.toNat ∧ c.toNat ≤ 0x06FF) :
    processArabicText (some reorder) text =
      "\n".intercalate ((splitLines text.toList).map (fun line => reorder (String.mk line))) ∧
    ((∀ line : String, '\n' ∉ (reorder line).toList) →
      splitLines (processArabicText (some reorder) text).toList =
        (splitLines text.toList).map (fun line => (reorder (String.mk line)).toList)) ∧
    processArabicText none text = text := by
  have hyes : hasArabic text = true := (hasArabic_eq_true_iff text).mpr h
  have hne : text ≠ "" := by
    rintro rfl
    obtain ⟨c, hc, -⟩ := h
    simp at hc
  have hfirst : processArabicText (some reorder) text =
      "\n".intercalate
        ((splitLines text.toList).map (fun line => reorder (String.mk line))) := by
    unfold processArabicText
    rw [if_neg hne, hyes]
    simp only [Bool.not_true, Bool.false_eq_true, if_false, List.map_map]
    rfl
  refine ⟨hfirst, ?_, ?_⟩
  · intro hclean
    rw [hfirst]
    cases hsplit : splitLines text.toList with
    | nil => exact absurd hsplit (splitLines_ne_nil _)
    | cons line rest =>
      simp only [List.map_cons, String.intercalate]
      rw [splitLines_intercalate_go _ (by
        intro piece hpiece
        obtain ⟨l, -, rfl⟩ := List.mem_map.mp hpiece
        exact hclean _)]
      rw [splitLines_of_no_newline _ (hclean _)]
      simp
  · unfold processArabicText
    rw [if_neg hne, hyes]
    rfl

/-- Witness of C12: a text of two lines, with the bidi library reversing
lines. -/
theorem processArabicText_with_arabic_witness :
    (∃ c ∈ "من\n10%".toList, 0x0600 ≤ c.toNat ∧ c.toNat ≤ 0x06FF) ∧
    processArabicText (some (fun line => String.mk line.toList.reverse)) "من\n10%" =
      "\n".intercalate
        ((splitLines "من\n10%".toList).map
          (fun line => (fun line => String.mk line.toList.reverse) (String.mk line))) ∧
    processArabicText (some (fun line => String.mk line.toList.reverse)) "من\n10%" = "نم\n%01" ∧
    processArabicText none "من\n10%" = "من\n10%" :=
  ⟨by decide,
    (processArabicText_with_arabic (fun line => String.mk line.toList.reverse) "من\n10%"
      (by decide)).1,
    by decide,
    (processArabicText_with_arabic (fun line => String.mk line.toList.reverse) "من\n10%"
      (by decide)).2.2⟩

/-! ## QR section and badge geometry -/

/-- C13: the QR loop produces exactly the four slots 0..3; slot `i` is a
placeholder (outlined box, icon and the label `QR {i+1}`, added at once) if
and only if `qrImages[i]` is falsy, whatever the other entries are; an absent
entry gives a placeholder, so without images all four slots are
placeholders. -/
theorem qr_slots_per_slot (data : DiscountData) (scale : ScaleFactors) (r : Rendered) :
    (qrSlots data scale r).length = 4 ∧
    qrSlots data scale r =
      [qrSlot data scale r 0, qrSlot data scale r 1, qrSlot data scale r 2,
        qrSlot data scale r 3] ∧
    (∀ i : ℕ, (qrSlot data scale r i).isPlaceholder = true ↔
      truthy (data.design.qrImages.getD i none) = false) ∧
    (∀ (other : DiscountData) (i : ℕ),
      other.design.qrImages.getD i none = data.design.qrImages.getD i none →
      (qrSlot other scale r i).isPlaceholder = (qrSlot data scale r i).isPlaceholder) ∧
    (∀ i : ℕ, data.design.qrImages.getD i none = none →
      ∃ (box : RectNode) (icon label : TextNode),
        qrSlot data scale r i = QrSlot.placeholder box icon label ∧
        (qrSlot data scale r i).syncNodes = [Node.rect box, Node.text icon, Node.text label] ∧
        box.stroke = some "#4F46E5" ∧ icon.text = "📱" ∧
        label.text = "QR " ++ toString (i + 1)) ∧
    ((∀ i : ℕ, i < 4 → data.design.qrImages.getD i none = none) →
      ∀ slot ∈ qrSlots data scale r, slot.isPlaceholder = true) := by
  have hiff : ∀ (d : DiscountData) (i : ℕ), (qrSlot d scale r i).isPlaceholder = true ↔
      truthy (d.design.qrImages.getD i none) = false := by
    intro d i
    unfold qrSlot
    by_cases ht : truthy (d.design.qrImages.getD i none) = true
    · rw [if_pos ht, ht]
      simp [QrSlot.isPlaceholder]
    · rw [if_neg ht, Bool.not_eq_true _ |>.mp ht]
      simp [QrSlot.isPlaceholder]
  have hlist : qrSlots data scale r =
      [qrSlot data scale r 0, qrSlot data scale r 1, qrSlot data scale r 2,
        qrSlot data scale r 3] := by
    simp [qrSlots, List.range, List.range.loop]
  refine ⟨by simp [qrSlots], hlist, hiff data, ?_, ?_, ?_⟩
  · intro other i hsame
    rw [Bool.eq_iff_iff, hiff, hiff, hsame]
  · intro i hnone
    have ht : ¬ truthy (data.design.qrImages.getD i none) = true := by
      rw [hnone]
      simp [truthy]
    unfold qrSlot
    rw [if_neg ht]
    exact ⟨_, _, _, rfl, rfl, rfl, rfl, rfl⟩
  · intro hall slot hslot
    rw [hlist] at hslot
    have hplace : ∀ i : ℕ, i < 4 → (qrSlot data scale r i).isPlaceholder = true := by
      intro i hi
      rw [hiff, hall i hi]
      rfl
    simp only [List.mem_cons, List.mem_singleton, List.not_mem_nil, or_false] at hslot
    rcases hslot with h | h | h | h <;> rw [h]
    · exact hplace 0 (by norm_num)
    · exact hplace 1 (by norm_num)
    · exact hplace 2 (by norm_num)
    · exact hplace 3 (by norm_num)

/-- Witness of C13: the initial document has no QR image. -/
theorem qr_slots_per_slot_witness :
    (∀ i : ℕ, i < 4 → defaultDiscountData.design.qrImages.getD i none = none) ∧
    ∀ slot ∈ qrSlots defaultDiscountData (getSmartScaleFactors ⟨"Instagram Story", 500, 900, ""⟩)
        (renderPhase singleLineEngine none defaultDiscountData "story"
          ⟨"Instagram Story", 500, 900, ""⟩
          (getSmartScaleFactors ⟨"Instagram Story", 500, 900, ""⟩) 1),
      slot.isPlaceholder = true :=
  ⟨by decide,
    (qr_slots_per_slot defaultDiscountData (getSmartScaleFactors ⟨"Instagram Story", 500, 900, ""⟩)
      (renderPhase singleLineEngine none defaultDiscountData "story"
        ⟨"Instagram Story", 500, 900, ""⟩
        (getSmartScaleFactors ⟨"Instagram Story", 500, 900, ""⟩) 1)).2.2.2.2.2 (by decide)⟩

/-- C14: in every format and at every scale the four QR slots have the size
`qrSize`, consecutive slots are one `smallGap` apart, and the row is centred:
the first slot is as far from the left margin as the last slot is from the
right margin, and the middle of the row is `format.width / 2`. -/
theorem qr_row_centred (konva : TextEngine) (bidi : Option (String → String))
    (data : DiscountData) (key : String) (format : Format) (scale : ScaleFactors) (ratio : ℚ) :
    let r := renderPhase konva bidi data key format scale ratio
    (∀ i : ℕ, (qrSlot data scale r i).x = qrX scale r i ∧
      (qrSlot data scale r i).width = r.qrSize ∧ (qrSlot data scale r i).height = r.qrSize) ∧
    (∀ i : ℕ, qrX scale r (i + 1) - (qrX scale r i + r.qrSize) = mathRound (8 * scale.spacing)) ∧
    qrX scale r 0 - r.margin = (format.width - r.margin) - (qrX scale r 3 + r.qrSize) ∧
    (qrX scale r 0 + (qrX scale r 3 + r.qrSize)) / 2 = format.width / 2 := by
  intro r
  have hsafe : r.safeWidth = format.width - (r.margin * 2) := rfl
  refine ⟨?_, ?_, ?_, ?_⟩
  · intro i
    unfold qrSlot
    by_cases ht : truthy (data.design.qrImages.getD i none) = true
    · rw [if_pos ht]
      exact ⟨rfl, rfl, rfl⟩
    · rw [if_neg ht]
      exact ⟨rfl, rfl, rfl⟩
  · intro i
    simp only [qrX]
    push_cast
    ring
  · simp only [qrX, hsafe]
    push_cast
    ring
  · simp only [qrX, hsafe]
    push_cast
    ring

/-- C16: the main badge pill is `round (200 * widthScale * fitRatio)` wide
(the width factor) and `round (50 * spacing)` high (the spacing factor), and
its group is placed at `x = (format.width - badgeWidth) / 2`, which centres
it. -/
theorem badge_geometry (konva : TextEngine) (bidi : Option (String → String))
    (newDate : String → DateObj) (data : DiscountData) (key : String) (format : Format)
    (scale : ScaleFactors) (ratio : ℚ) :
    let r := renderPhase konva bidi data key format scale ratio
    r.badgeWidth = mathRound (200 * scale.width * ratio) ∧
    r.scaledBadgeHeight = mathRound (50 * scale.spacing) ∧
    badgeGroupNode data format scale r ∈ layerNodes bidi newDate data format scale ratio r ∧
    ∃ (pill : RectNode) (label : TextNode),
      badgeGroupNode data format scale r =
        Node.group ((format.width - r.badgeWidth) / 2) r.badgeY true "badgeGroup"
          [Node.rect pill, Node.text label] ∧
      pill.width = r.badgeWidth ∧ pill.height = r.scaledBadgeHeight ∧
      pill.x = 0 ∧ label.width = r.badgeWidth ∧
      (format.width - r.badgeWidth) / 2 + r.badgeWidth / 2 = format.width / 2 := by
  intro r
  refine ⟨rfl, rfl, ?_, _, _, rfl, rfl, rfl, rfl, rfl, ?_⟩
  · simp [layerNodes]
  · ring

/-! ## Measure phase against render phase -/

/-- The fitted scale of the story format with the initial document is the
initial scale, and the fit ratio is 1. -/
theorem story_default_fit :
    (fitPhase singleLineEngine defaultDiscountData
        ⟨"Instagram Story", 500, 900, "1080×1920 px (9:16)"⟩).scale =
      getSmartScaleFactors ⟨"Instagram Story", 500, 900, "1080×1920 px (9:16)"⟩ ∧
    (fitPhase singleLineEngine defaultDiscountData
        ⟨"Instagram Story", 500, 900, "1080×1920 px (9:16)"⟩).fitRatio = 1 := by
  constructor <;>
  norm_num [fitPhase, fitRatio, applyFitRatio, measurePhase, getSmartScaleFactors,
    defaultDiscountData, mathRound, mathCeil, measureText, singleLineEngine, truthy]

/-- The cursor of the render phase advances over the header by the heights of
the header text nodes. -/
theorem renderPhase_header_node_heights (konva : TextEngine) (bidi : Option (String → String))
    (data : DiscountData) (key : String) (format : Format) (scale : ScaleFactors) (ratio : ℚ) :
    let r := renderPhase konva bidi data key format scale ratio
    r.taglineY = r.storeNameY + (konva (storeNameNode data scale r).spec +
      mathRound (10 * scale.spacing)) ∧
    r.locationY = r.taglineY + (konva (taglineNode data scale r).spec +
      mathRound (10 * scale.spacing)) ∧
    r.mainTitleY = r.locationY + (konva (locationNode data scale r).spec +
      mathRound (15 * scale.spacing)) ∧
    r.badgeY = r.mainTitleY + (konva (mainTitleNode data scale r).spec +
      mathRound (25 * scale.spacing)) ∧
    r.footerCursorY = r.socialY + (konva (socialTextNode data scale r).spec +
      mathRound (15 * scale.spacing)) :=
  ⟨rfl, rfl, rfl, rfl, rfl⟩

/-- C15 (the code departs from the claim): in the story format with the
initial document, where the render phase runs at the scale factors of the
measure phase, the measure phase counts 120 px for the QR section, whereas the
render phase gives it 150 px, the label allowance plus the capped slot size
plus the bottom padding. -/
theorem measure_qr_height_differs_from_render :
    ∃ format : Format, discountFormats "story" = some format ∧
      let fit := fitPhase singleLineEngine defaultDiscountData format
      let r := renderPhase singleLineEngine none defaultDiscountData "story" format
        fit.scale fit.fitRatio
      fit.scale = getSmartScaleFactors format ∧
      fit.measured.qrSectionHeight = 120 ∧
      r.qrSectionRealHeight = 150 ∧
      r.qrSectionRealHeight =
        mathRound (30 * fit.scale.spacing) +
          min (mathRound ((r.safeWidth - 5 * mathRound (8 * fit.scale.spacing)) / 4))
            (mathRound (150 * fit.scale.spacing)) +
          mathRound (20 * fit.scale.spacing) := by
  refine ⟨⟨"Instagram Story", 500, 900, "1080×1920 px (9:16)"⟩, rfl, ?_⟩
  intro fit r
  have hscale : fit.scale = getSmartScaleFactors
      ⟨"Instagram Story", 500, 900, "1080×1920 px (9:16)"⟩ := story_default_fit.1
  have hreal : r.qrSectionRealHeight = 150 := by
    simp only [r, hscale]
    norm_num [renderPhase, getSmartScaleFactors, mathRound]
  refine ⟨hscale, ?_, hreal, ?_⟩
  · norm_num [fit, fitPhase, measurePhase, getSmartScaleFactors, mathRound]
  · rw [hreal]
    simp only [r, hscale]
    norm_num [renderPhase, getSmartScaleFactors, mathRound]

/-- C17 (the code departs from the claim): in the story format with the
initial document and single-line text, at equal scale factors, the store
name is measured at 45.5 px (line height 1.3) while its node is 35 px high
(line height 1); the tagline and location nodes also have line height 1 and
the description node line height 1.6, against 1.3 in the measure helper; only
the main title is measured as it is rendered. -/
theorem measured_text_differs_from_rendered :
    ∃ format : Format, discountFormats "story" = some format ∧
      let fit := fitPhase singleLineEngine defaultDiscountData format
      let r := renderPhase singleLineEngine none defaultDiscountData "story" format
        fit.scale fit.fitRatio
      fit.scale = getSmartScaleFactors format ∧
      fit.measured.storeNameHeight = 91 / 2 ∧
      singleLineEngine (storeNameNode defaultDiscountData fit.scale r).spec = 35 ∧
      measureText (fun spec => spec.lineHeight) defaultDiscountData.storeName
        (mathRound (32 * fit.scale.font)) "Almarai, Arial" "bold" r.safeWidth = 1.3 ∧
      (storeNameNode defaultDiscountData fit.scale r).lineHeight = 1 ∧
      (taglineNode defaultDiscountData fit.scale r).lineHeight = 1 ∧
      (locationNode defaultDiscountData fit.scale r).lineHeight = 1 ∧
      (descContentNode none defaultDiscountData fit.scale r).lineHeight = 1.6 ∧
      fit.measured.mainTitleHeight =
        singleLineEngine (mainTitleNode defaultDiscountData fit.scale r).spec := by
  refine ⟨⟨"Instagram Story", 500, 900, "1080×1920 px (9:16)"⟩, rfl, ?_⟩
  intro fit r
  have hscale : fit.scale = getSmartScaleFactors
      ⟨"Instagram Story", 500, 900, "1080×1920 px (9:16)"⟩ := story_default_fit.1
  refine ⟨hscale, ?_, ?_, rfl, rfl, rfl, rfl, rfl, ?_⟩
  · norm_num [fit, fitPhase, measurePhase, getSmartScaleFactors, defaultDiscountData, mathRound,
      measureText, singleLineEngine]
  · simp only [hscale]
    norm_num [storeNameNode, TextNode.spec, getSmartScaleFactors, mathRound, singleLineEngine]
  · simp only [hscale]
    norm_num [fit, fitPhase, measurePhase, mainTitleNode, TextNode.spec, getSmartScaleFactors,
      defaultDiscountData, mathRound, measureText, singleLineEngine]

/-- C18 (the code departs from the claim): with the initial document (no QR
image) the render phase adds thirty nodes to the design layer; the icon and
the label of each of the four QR placeholders are created without
`draggable`, every other node with `draggable: true`. -/
theorem placeholder_icon_label_not_draggable :
    ∃ format : Format, discountFormats "story" = some format ∧
      ∀ newDate : String → DateObj,
        let fit := fitPhase singleLineEngine defaultDiscountData format
        let r := renderPhase singleLineEngine none defaultDiscountData "story" format
          fit.scale fit.fitRatio
        (layerNodes none newDate defaultDiscountData format fit.scale fit.fitRatio r).map
            Node.draggable =
          [true, true, true, true, true, true, true, true, true, true, true, true, true, true,
            true, false, false, true, false, false, true, false, false, true, false, false,
            true, true, true, true] ∧
        ∃ (box : RectNode) (icon label : TextNode),
          qrSlot defaultDiscountData fit.scale r 0 = QrSlot.placeholder box icon label ∧
          Node.text icon ∈
            layerNodes none newDate defaultDiscountData format fit.scale fit.fitRatio r ∧
          Node.text label ∈
            layerNodes none newDate defaultDiscountData format fit.scale fit.fitRatio r ∧
          box.draggable = true ∧ icon.draggable = false ∧ label.draggable = false ∧
          icon.text = "📱" ∧ label.text = "QR 1" := by
  refine ⟨⟨"Instagram Story", 500, 900, "1080×1920 px (9:16)"⟩, rfl, ?_⟩
  intro newDate fit r
  have hslot : ∀ i : ℕ, i < 4 → ∃ (box : RectNode) (icon label : TextNode),
      qrSlot defaultDiscountData fit.scale r i = QrSlot.placeholder box icon label ∧
      box.draggable = true ∧ icon.draggable = false ∧ label.draggable = false ∧
      icon.text = "📱" ∧ label.text = "QR " ++ toString (i + 1) := by
    intro i hi
    have ht : ¬ truthy (defaultDiscountData.design.qrImages.getD i none) = true := by
      interval_cases i <;> decide
    unfold qrSlot
    rw [if_neg ht]
    exact ⟨_, _, _, rfl, rfl, rfl, rfl, rfl, rfl⟩
  obtain ⟨b0, i0, l0, h0, hb0, hi0, hl0, ht0, hn0⟩ := hslot 0 (by norm_num)
  obtain ⟨b1, i1, l1, h1, hb1, hi1, hl1, -, -⟩ := hslot 1 (by norm_num)
  obtain ⟨b2, i2, l2, h2, hb2, hi2, hl2, -, -⟩ := hslot 2 (by norm_num)
  obtain ⟨b3, i3, l3, h3, hb3, hi3, hl3, -, -⟩ := hslot 3 (by norm_num)
  have hslots : qrSlots defaultDiscountData fit.scale r =
      [QrSlot.placeholder b0 i0 l0, QrSlot.placeholder b1 i1 l1, QrSlot.placeholder b2 i2 l2,
        QrSlot.placeholder b3 i3 l3] := by
    simp only [qrSlots, List.range, List.range.loop, List.map_cons, List.map_nil, h0, h1, h2, h3]
  refine ⟨?_, b0, i0, l0, h0, ?_, ?_, hb0, hi0, hl0, ht0, hn0⟩
  · simp only [layerNodes, hslots]
    simp [QrSlot.syncNodes, Node.draggable, defaultDiscountData,
      List.enum, List.enumFrom, badgeGroupNode, categoryGroupNode, expiryGroupNode, storeNameNode,
      taglineNode, locationNode, mainTitleNode, descBgNode, descTitleNode, descContentNode,
      qrSectionBgNode, qrTextNode, socialTextNode, footerBgNode, phoneTextNode, hb0, hb1, hb2,
      hb3, hi0, hi1, hi2, hi3, hl0, hl1, hl2, hl3]
  · simp [layerNodes, hslots, QrSlot.syncNodes]
  · simp [layerNodes, hslots, QrSlot.syncNodes]

/-! ## Re-render and safety of the measure phase -/

/-- C19: a call of `createDiscountDesign` leaves `discountData` and
`currentDiscountFormat` as they were, builds the layer from scale factors
computed afresh from the format (the initial factors times one fit ratio),
and a second call on the state it leaves gives the same state again, so the
node list with its positions and sizes is the same. -/
theorem createDiscountDesign_rerender (konva : TextEngine) (bidi : Option (String → String))
    (newDate : String → DateObj) (s s₁ : ToolState)
    (h : createDiscountDesignStep konva bidi newDate s = some s₁) :
    s₁.discountData = s.discountData ∧
    s₁.currentDiscountFormat = s.currentDiscountFormat ∧
    (∀ format : Format, discountFormats s.currentDiscountFormat = some format →
      s.discountDesignLayer ≠ none →
      let ratio :=
        fitRatio
          (measurePhase konva s.discountData format
            (getSmartScaleFactors format)).totalRequiredHeight
          format.height
      let scale := applyFitRatio (getSmartScaleFactors format) ratio
      s₁.discountDesignLayer =
        some (layerNodes bidi newDate s.discountData format scale ratio
          (renderPhase konva bidi s.discountData s.currentDiscountFormat format scale ratio))) ∧
    createDiscountDesignStep konva bidi newDate s₁ = some s₁ := by
  unfold createDiscountDesignStep at h
  cases hlayer : s.discountDesignLayer with
  | none =>
    rw [hlayer] at h
    simp only [Option.some.injEq] at h
    subst h
    refine ⟨rfl, rfl, ?_, ?_⟩
    · intro format _ hne
      exact absurd rfl hne
    · unfold createDiscountDesignStep
      rw [hlayer]
  | some nodes =>
    rw [hlayer] at h
    cases hformat : discountFormats s.currentDiscountFormat with
    | none =>
      rw [hformat] at h
      simp at h
    | some format =>
      rw [hformat] at h
      simp only [Option.some.injEq] at h
      subst h
      refine ⟨rfl, rfl, ?_, ?_⟩
      · intro format' hformat' _
        simp only [Option.some.injEq] at hformat'
        subst hformat'
        rfl
      · unfold createDiscountDesignStep
        simp only [hformat]

/-- Witness of C19: the initial document in the story format, on an empty
design layer. -/
theorem createDiscountDesign_rerender_witness :
    ∃ s₁ : ToolState,
      createDiscountDesignStep singleLineEngine none
          (fun _ => ⟨JSNum.fin 31, JSNum.fin 11, JSNum.fin 2025⟩)
          ⟨defaultDiscountData, "story", some [], none⟩ = some s₁ ∧
      createDiscountDesignStep singleLineEngine none
          (fun _ => ⟨JSNum.fin 31, JSNum.fin 11, JSNum.fin 2025⟩) s₁ = some s₁ :=
  ⟨_, rfl,
    (createDiscountDesign_rerender singleLineEngine none
      (fun _ => ⟨JSNum.fin 31, JSNum.fin 11, JSNum.fin 2025⟩)
      ⟨defaultDiscountData, "story", some [], none⟩ _ rfl).2.2.2⟩

/-- Rounding a non-negative number gives a non-negative number. -/
theorem mathRound_nonneg (x : ℚ) (h : 0 ≤ x) : 0 ≤ mathRound x := by
  unfold mathRound
  have : (0 : ℤ) ≤ ⌊x + 1 / 2⌋ := Int.floor_nonneg.mpr (by linarith)
  exact_mod_cast this

/-- Every preset format has a positive width and a positive height. -/
theorem preset_format_positive (key : String) (format : Format)
    (h : discountFormats key = some format) : 0 < format.width ∧ 0 < format.height := by
  unfold discountFormats at h
  split at h <;> simp only [Option.some.injEq, reduceCtorEq] at h <;> subst h <;> norm_num

/-- C20: for a document with at least one category (and a logo height that
is not negative), a preset format and a text engine with non-negative
heights: when the measured total exceeds the available height the fit ratio
is below 1.0 and the divisor of `available / total` is not zero, and each of
the seven section heights of the measure phase is non-negative. -/
theorem measure_fit_safety (konva : TextEngine) (data : DiscountData) (key : String)
    (format : Format) (hformat : discountFormats key = some format)
    (hcategories : data.categories ≠ []) (hheights : ∀ spec : TextSpec, 0 ≤ konva spec)
    (hlogo : 0 ≤ data.design.logoHeight) :
    let fit := fitPhase konva data format
    (fit.measured.totalRequiredHeight > format.height →
      fit.fitRatio < 1.0 ∧ fit.measured.totalRequiredHeight ≠ 0) ∧
    0 ≤ fit.measured.headerTotalHeight ∧
    0 ≤ fit.measured.badgeHeight ∧
    0 ≤ fit.measured.categoriesTotalHeight ∧
    0 ≤ fit.measured.termsTotalHeight ∧
    0 ≤ fit.measured.qrSectionHeight ∧
    0 ≤ fit.measured.socialHeight ∧
    0 ≤ fit.measured.footerHeight := by
  intro fit
  obtain ⟨hw, hh⟩ := preset_format_positive key format hformat
  have hspacing : 0 < (getSmartScaleFactors format).spacing := by
    simp only [getSmartScaleFactors]
    exact lt_min (div_pos hw (by norm_num)) (div_pos hh (by norm_num))
  have hround : ∀ c : ℚ, 0 ≤ c → 0 ≤ mathRound (c * (getSmartScaleFactors format).spacing) :=
    fun c hc => mathRound_nonneg _ (mul_nonneg hc (le_of_lt hspacing))
  refine ⟨?_, ?_, ?_, ?_, ?_, ?_, ?_, ?_⟩
  · intro hover
    have htotal : 0 < fit.measured.totalRequiredHeight := lt_trans hh hover
    refine ⟨?_, ne_of_gt htotal⟩
    show fitRatio fit.measured.totalRequiredHeight format.height < 1.0
    unfold fitRatio
    rw [if_pos hover]
    refine max_lt ?_ (by norm_num)
    rw [div_lt_iff₀ htotal]
    norm_num
    exact hover
  · show 0 ≤ (measurePhase konva data format (getSmartScaleFactors format)).headerTotalHeight
    simp only [measurePhase, measureText]
    have hlogoPart : 0 ≤ (if truthy data.design.logoImage = true then
        mathRound (data.design.logoHeight * (getSmartScaleFactors format).element) +
          mathRound (20 * (getSmartScaleFactors format).spacing)
        else 0) := by
      split_ifs
      · have helement : (getSmartScaleFactors format).element =
            (getSmartScaleFactors format).spacing := rfl
        have h1 := mathRound_nonneg
          (data.design.logoHeight * (getSmartScaleFactors format).element)
          (mul_nonneg hlogo (by rw [helement]; exact le_of_lt hspacing))
        have h2 := hround 20 (by norm_num)
        linarith
      · exact le_refl 0
    have h10 := hround 10 (by norm_num)
    have ha := hheights
      { text := data.storeName
        fontSize := mathRound (32 * (getSmartScaleFactors format).font)
        fontFamily := "Almarai, Arial"
        fontStyle := "bold"
        width := format.width - mathRound (30 * (getSmartScaleFactors format).spacing) * 2
        lineHeight := 1.3 }
    have hb := hheights
      { text := data.tagline
        fontSize := mathRound (15 * (getSmartScaleFactors format).font)
        fontFamily := "Almarai"
        fontStyle := "bold"
        width := format.width - mathRound (30 * (getSmartScaleFactors format).spacing) * 2
        lineHeight := 1.3 }
    have hc := hheights
      { text := data.location
        fontSize := mathRound (13 * (getSmartScaleFactors format).font)
        fontFamily := "Almarai"
        fontStyle := "normal"
        width := format.width - mathRound (30 * (getSmartScaleFactors format).spacing) * 2
        lineHeight := 1.3 }
    have hd := hheights
      { text := data.mainTitle
        fontSize := mathRound (24 * (getSmartScaleFactors format).font)
        fontFamily := "Almarai"
        fontStyle := "bold"
        width := format.width - mathRound (30 * (getSmartScaleFactors format).spacing) * 2
        lineHeight := 1.3 }
    linarith
  · exact hround 50 (by norm_num)
  · show 0 ≤ (measurePhase konva data format (getSmartScaleFactors format)).categoriesTotalHeight
    simp only [measurePhase]
    have hlen : 0 < data.categories.length := List.length_pos.mpr hcategories
    have hceil : (1 : ℚ) ≤ mathCeil ((data.categories.length : ℚ) / 2) := by
      unfold mathCeil
      have hpos : (0 : ℚ) < (data.categories.length : ℚ) / 2 :=
        div_pos (by exact_mod_cast hlen) (by norm_num)
      have : (1 : ℤ) ≤ ⌈(data.categories.length : ℚ) / 2⌉ := Int.ceil_pos.mpr hpos
      exact_mod_cast this
    have h70 := hround 70 (by norm_num)
    have h12 := hround 12 (by norm_num)
    have hrows := mul_nonneg (le_trans zero_le_one hceil) h70
    have hgaps := mul_nonneg (sub_nonneg.mpr hceil) h12
    linarith
  · show 0 ≤ (measurePhase konva data format (getSmartScaleFactors format)).termsTotalHeight
    simp only [measurePhase, measureText]
    have h45 := hround 45 (by norm_num)
    have hdesc := hheights
      { text := data.description
        fontSize := mathRound (11 * (getSmartScaleFactors format).font)
        fontFamily := "Almarai"
        fontStyle := "normal"
        width := format.width - mathRound (30 * (getSmartScaleFactors format).spacing) * 2 -
          mathRound (10 * (getSmartScaleFactors format).spacing) * 2
        lineHeight := 1.3 }
    linarith
  · exact hround 120 (by norm_num)
  · exact hround 20 (by norm_num)
  · exact hround 60 (by norm_num)

/-- Witness of C20: the initial document in the story format with a text
engine that gives every text 20 px. -/
theorem measure_fit_safety_witness :
    discountFormats "story" = some ⟨"Instagram Story", 500, 900, "1080×1920 px (9:16)"⟩ ∧
    defaultDiscountData.categories ≠ [] ∧
    (∀ spec : TextSpec, 0 ≤ (fun _ : TextSpec => (20 : ℚ)) spec) ∧
    0 ≤ defaultDiscountData.design.logoHeight ∧
    0 ≤ (fitPhase (fun _ : TextSpec => (20 : ℚ)) defaultDiscountData
      ⟨"Instagram Story", 500, 900, "1080×1920 px (9:16)"⟩).measured.categoriesTotalHeight :=
  ⟨rfl, by simp [defaultDiscountData], fun _ => by norm_num, by norm_num [defaultDiscountData],
    (measure_fit_safety (fun _ : TextSpec => (20 : ℚ)) defaultDiscountData "story"
      ⟨"Instagram Story", 500, 900, "1080×1920 px (9:16)"⟩ rfl (by simp [defaultDiscountData])
      (fun _ => by norm_num) (by norm_num [defaultDiscountData])).2.2.2.1⟩

/-! ## Story budget, monotone width scale, footer -/

/-- C21: in the story format with four categories and no logo the measured
total is the five text heights plus the constant 687 px (margins 60, header
gaps 30, badge 50, categories 152, terms allowance 45, QR 120, social 20,
footer 60, six section gaps 150); the fit ratio is exactly 1.0 when the text
heights sum to at most 213 px and below 1.0 when they sum to more. -/
theorem story_budget (konva : TextEngine) (data : DiscountData) (format : Format)
    (hformat : discountFormats "story" = some format)
    (hcategories : data.categories.length = 4)
    (hlogo : truthy data.design.logoImage = false) :
    let fit := fitPhase konva data format
    let m := fit.measured
    let texts :=
      m.storeNameHeight + m.taglineHeight + m.locationHeight + m.mainTitleHeight +
        m.descriptionHeight
    (2 * m.margin = 60 ∧ 3 * m.headerGap = 30 ∧ m.badgeHeight = 50 ∧
      m.categoriesTotalHeight = 152 ∧ m.termsTotalHeight = m.descriptionHeight + 45 ∧
      m.qrSectionHeight = 120 ∧ m.socialHeight = 20 ∧ m.footerHeight = 60 ∧
      6 * m.sectionGap = 150) ∧
    m.totalRequiredHeight = texts + 687 ∧
    (texts ≤ 213 → fit.fitRatio = 1.0) ∧
    (213 < texts → fit.fitRatio < 1.0) := by
  have hstory : format = ⟨"Instagram Story", 500, 900, "1080×1920 px (9:16)"⟩ := by
    have h : discountFormats "story" =
        some ⟨"Instagram Story", 500, 900, "1080×1920 px (9:16)"⟩ := rfl
    rw [h] at hformat
    exact (Option.some.inj hformat).symm
  subst hstory
  intro fit m texts
  have hparts : 2 * m.margin = 60 ∧ 3 * m.headerGap = 30 ∧ m.badgeHeight = 50 ∧
      m.categoriesTotalHeight = 152 ∧ m.termsTotalHeight = m.descriptionHeight + 45 ∧
      m.qrSectionHeight = 120 ∧ m.socialHeight = 20 ∧ m.footerHeight = 60 ∧
      6 * m.sectionGap = 150 := by
    refine ⟨?_, ?_, ?_, ?_, ?_, ?_, ?_, ?_, ?_⟩ <;>
    norm_num [m, fit, fitPhase, measurePhase, getSmartScaleFactors, mathRound, mathCeil,
      hcategories]
  have htotal : m.totalRequiredHeight = texts + 687 := by
    simp only [m, fit, texts, fitPhase, measurePhase, hlogo]
    norm_num [getSmartScaleFactors, mathRound, mathCeil, hcategories]
    ring
  refine ⟨hparts, htotal, ?_, ?_⟩
  · intro hfits
    show fitRatio m.totalRequiredHeight 900 = 1.0
    unfold fitRatio
    rw [if_neg (by rw [htotal]; linarith)]
  · intro hover
    show fitRatio m.totalRequiredHeight 900 < 1.0
    have hgt : m.totalRequiredHeight > 900 := by rw [htotal]; linarith
    unfold fitRatio
    rw [if_pos hgt]
    refine max_lt ?_ (by norm_num)
    rw [div_lt_iff₀ (by linarith)]
    norm_num
    exact hgt

/-- Witness of C21: the initial document with single-line text heights. -/
theorem story_budget_witness :
    discountFormats "story" = some ⟨"Instagram Story", 500, 900, "1080×1920 px (9:16)"⟩ ∧
    defaultDiscountData.categories.length = 4 ∧
    truthy defaultDiscountData.design.logoImage = false ∧
    (fitPhase singleLineEngine defaultDiscountData
        ⟨"Instagram Story", 500, 900, "1080×1920 px (9:16)"⟩).measured.totalRequiredHeight =
      ((fitPhase singleLineEngine defaultDiscountData
          ⟨"Instagram Story", 500, 900, "1080×1920 px (9:16)"⟩).measured.storeNameHeight +
        (fitPhase singleLineEngine defaultDiscountData
          ⟨"Instagram Story", 500, 900, "1080×1920 px (9:16)"⟩).measured.taglineHeight +
        (fitPhase singleLineEngine defaultDiscountData
          ⟨"Instagram Story", 500, 900, "1080×1920 px (9:16)"⟩).measured.locationHeight +
        (fitPhase singleLineEngine defaultDiscountData
          ⟨"Instagram Story", 500, 900, "1080×1920 px (9:16)"⟩).measured.mainTitleHeight +
        (fitPhase singleLineEngine defaultDiscountData
          ⟨"Instagram Story", 500, 900, "1080×1920 px (9:16)"⟩).measured.descriptionHeight) +
        687 :=
  ⟨rfl, rfl, rfl,
    (story_budget singleLineEngine defaultDiscountData
      ⟨"Instagram Story", 500, 900, "1080×1920 px (9:16)"⟩ rfl rfl rfl).2.1⟩

/-- An integer rounds to itself. -/
theorem roundHalfEven_intCast (n : ℤ) : roundHalfEven (n : ℚ) = n := by
  simp [roundHalfEven]

/-- Rounding to the nearest integer is monotone. -/
theorem roundHalfEven_mono {x y : ℚ} (h : x ≤ y) : roundHalfEven x ≤ roundHalfEven y := by
  have hfloor : ⌊x⌋ ≤ ⌊y⌋ := Int.floor_mono h
  have hx1 : roundHalfEven x ≤ ⌊x⌋ + 1 := by
    unfold roundHalfEven
    split_ifs <;> omega
  have hy0 : ⌊y⌋ ≤ roundHalfEven y := by
    unfold roundHalfEven
    split_ifs <;> omega
  rcases lt_or_eq_of_le hfloor with hlt | heq
  · omega
  · have hfrac : x - ⌊x⌋ ≤ y - ⌊y⌋ := by rw [heq]; linarith
    unfold roundHalfEven
    rw [heq]
    rw [heq] at hfrac
    split_ifs <;> first | omega | (exfalso; linarith)

/-- The binary64 number nearest to a positive rational, from its exponent and
its rounded significand. -/
theorem binary64OfPos_eq (x : ℚ) (e m : ℤ) (hlow : (2 : ℚ) ^ e ≤ x) (hhigh : x < (2 : ℚ) ^ (e + 1))
    (hm : roundHalfEven (x / 2 ^ (e - 52)) = m) : binary64OfPos x = (m : ℚ) * 2 ^ (e - 52) := by
  have hpos : 0 < x := lt_of_lt_of_le (by positivity) hlow
  have hlog : Int.log 2 x = e := by
    apply le_antisymm
    · have := (Int.lt_zpow_iff_log_lt (R := ℚ) (b := 2) (by norm_num) hpos).mp (by exact_mod_cast hhigh)
      omega
    · exact (Int.zpow_le_iff_le_log (R := ℚ) (b := 2) (by norm_num) hpos).mp (by exact_mod_cast hlow)
  unfold binary64OfPos
  simp only [hlog, hm]

/-- The binary64 number nearest to a positive rational stays between the
powers of two around it. -/
theorem binary64OfPos_bounds (x : ℚ) (hpos : 0 < x) :
    (2 : ℚ) ^ Int.log 2 x ≤ binary64OfPos x ∧ binary64OfPos x ≤ (2 : ℚ) ^ (Int.log 2 x + 1) := by
  have hlow : (2 : ℚ) ^ Int.log 2 x ≤ x := by
    have := Int.zpow_log_le_self (R := ℚ) (b := 2) (by norm_num) hpos
    exact_mod_cast this
  have hhigh : x < (2 : ℚ) ^ (Int.log 2 x + 1) := by
    have := Int.lt_zpow_succ_log_self (R := ℚ) (b := 2) (by norm_num) x
    exact_mod_cast this
  have hulp : (0 : ℚ) < 2 ^ (Int.log 2 x - 52) := by positivity
  have he : (2 : ℚ) ^ Int.log 2 x = 2 ^ (52 : ℕ) * 2 ^ (Int.log 2 x - 52) := by
    rw [← zpow_natCast, ← zpow_add₀ (by norm_num : (2 : ℚ) ≠ 0)]
    congr 1
    push_cast
    ring
  have he1 : (2 : ℚ) ^ (Int.log 2 x + 1) = 2 ^ (53 : ℕ) * 2 ^ (Int.log 2 x - 52) := by
    rw [← zpow_natCast, ← zpow_add₀ (by norm_num : (2 : ℚ) ≠ 0)]
    congr 1
    push_cast
    ring
  have h52 : (((2 ^ 52 : ℤ)) : ℚ) ≤ x / 2 ^ (Int.log 2 x - 52) := by
    have hc : (((2 ^ 52 : ℤ)) : ℚ) = 2 ^ (52 : ℕ) := by norm_num
    rw [le_div_iff₀ hulp, hc, ← he]
    exact hlow
  have h53 : x / 2 ^ (Int.log 2 x - 52) ≤ (((2 ^ 53 : ℤ)) : ℚ) := by
    have hc : (((2 ^ 53 : ℤ)) : ℚ) = 2 ^ (53 : ℕ) := by norm_num
    rw [div_le_iff₀ hulp, hc, ← he1]
    exact le_of_lt hhigh
  have hr52 := roundHalfEven_mono h52
  have hr53 := roundHalfEven_mono h53
  rw [roundHalfEven_intCast] at hr52 hr53
  unfold binary64OfPos
  simp only
  constructor
  · rw [he]
    apply mul_le_mul_of_nonneg_right _ (le_of_lt hulp)
    exact_mod_cast hr52
  · rw [he1]
    apply mul_le_mul_of_nonneg_right _ (le_of_lt hulp)
    exact_mod_cast hr53

/-- Rounding positive rationals to binary64 is monotone. -/
theorem binary64OfPos_mono {x y : ℚ} (hx : 0 < x) (h : x ≤ y) :
    binary64OfPos x ≤ binary64OfPos y := by
  have hy : 0 < y := lt_of_lt_of_le hx h
  have hlog : Int.log 2 x ≤ Int.log 2 y := Int.log_mono_right hx h
  rcases lt_or_eq_of_le hlog with hlt | heq
  · have h1 := (binary64OfPos_bounds x hx).2
    have h2 := (binary64OfPos_bounds y hy).1
    have h3 : (2 : ℚ) ^ (Int.log 2 x + 1) ≤ 2 ^ Int.log 2 y :=
      zpow_le_zpow_right₀ (by norm_num) (by omega)
    linarith
  · unfold binary64OfPos
    simp only [heq]
    have hulp : (0 : ℚ) < 2 ^ (Int.log 2 y - 52) := by positivity
    apply mul_le_mul_of_nonneg_right _ (le_of_lt hulp)
    have hdiv : x / 2 ^ (Int.log 2 y - 52) ≤ y / 2 ^ (Int.log 2 y - 52) :=
      div_le_div_of_nonneg_right h (le_of_lt hulp)
    exact_mod_cast roundHalfEven_mono hdiv

/-- The binary64 number nearest to a positive rational is positive. -/
theorem binary64OfPos_pos (x : ℚ) (hpos : 0 < x) : 0 < binary64OfPos x :=
  lt_of_lt_of_le (by positivity) (binary64OfPos_bounds x hpos).1

/-- Rounding to binary64 is monotone. -/
theorem toBinary64_mono {x y : ℚ} (h : x ≤ y) : toBinary64 x ≤ toBinary64 y := by
  unfold toBinary64
  rcases lt_trichotomy x 0 with hx | hx | hx
  · rw [if_neg (not_lt.mpr (le_of_lt hx)), if_pos hx]
    rcases lt_trichotomy y 0 with hy | hy | hy
    · rw [if_neg (not_lt.mpr (le_of_lt hy)), if_pos hy]
      exact neg_le_neg (binary64OfPos_mono (by linarith) (by linarith))
    · subst hy
      simp only [lt_irrefl, if_false]
      exact neg_nonpos.mpr (le_of_lt (binary64OfPos_pos _ (by linarith)))
    · rw [if_pos hy]
      have h1 := binary64OfPos_pos (-x) (by linarith)
      have h2 := binary64OfPos_pos y hy
      linarith
  · subst hx
    simp only [lt_irrefl, if_false]
    rcases lt_or_eq_of_le h with hy | hy
    · rw [if_pos hy]
      exact le_of_lt (binary64OfPos_pos y hy)
    · rw [← hy]
      simp
  · have hy : 0 < y := lt_of_lt_of_le hx h
    rw [if_pos hx, if_pos hy]
    exact binary64OfPos_mono hx h


/-- Rounding to the nearest integer moves a number by at most one half. -/
theorem roundHalfEven_error (x : ℚ) :
    x - 1 / 2 ≤ (roundHalfEven x : ℚ) ∧ (roundHalfEven x : ℚ) ≤ x + 1 / 2 := by
  have h1 : ((⌊x⌋ : ℤ) : ℚ) ≤ x := Int.floor_le x
  have h2 : x < ((⌊x⌋ : ℤ) : ℚ) + 1 := Int.lt_floor_add_one x
  unfold roundHalfEven
  split_ifs with ha hb hc
  · constructor <;> linarith
  · push_cast
    constructor <;> linarith
  · constructor <;> linarith
  · push_cast
    constructor <;> linarith

/-- Rounding a positive rational to binary64 moves it by at most its
2^53-th part. -/
theorem binary64OfPos_error (x : ℚ) (hpos : 0 < x) :
    x - x / 2 ^ (53 : ℕ) ≤ binary64OfPos x ∧ binary64OfPos x ≤ x + x / 2 ^ (53 : ℕ) := by
  have hlow : (2 : ℚ) ^ Int.log 2 x ≤ x := by
    have := Int.zpow_log_le_self (R := ℚ) (b := 2) (by norm_num) hpos
    exact_mod_cast this
  have hulp : (0 : ℚ) < 2 ^ (Int.log 2 x - 52) := by positivity
  have he : (2 : ℚ) ^ Int.log 2 x = 2 ^ (52 : ℕ) * 2 ^ (Int.log 2 x - 52) := by
    rw [← zpow_natCast, ← zpow_add₀ (by norm_num : (2 : ℚ) ≠ 0)]
    congr 1
    push_cast
    ring
  have hhalf : (2 : ℚ) ^ (Int.log 2 x - 52) / 2 ≤ x / 2 ^ (53 : ℕ) := by
    rw [he] at hlow
    rw [div_le_div_iff₀ (by norm_num) (by positivity)]
    have h53 : (2 : ℚ) ^ (53 : ℕ) = 2 * 2 ^ (52 : ℕ) := by norm_num
    rw [h53]
    nlinarith
  obtain ⟨hr1, hr2⟩ := roundHalfEven_error (x / 2 ^ (Int.log 2 x - 52))
  have hx : x / 2 ^ (Int.log 2 x - 52) * 2 ^ (Int.log 2 x - 52) = x :=
    div_mul_cancel₀ x (ne_of_gt hulp)
  have hm1 := mul_le_mul_of_nonneg_right hr1 (le_of_lt hulp)
  have hm2 := mul_le_mul_of_nonneg_right hr2 (le_of_lt hulp)
  rw [sub_mul, hx] at hm1
  rw [add_mul, hx] at hm2
  unfold binary64OfPos
  simp only
  constructor <;> linarith

/-- C22 (counterexample): 505 and 505 + 2^-44 (printed 505.00000000000006)
are binary64 numbers, the second the larger, and at equal heights both
formats get the width scale 1.01, the binary64 number nearest to both
quotients; the second is not strictly greater. -/
theorem width_scale_binary64_counterexample :
    toBinary64 505 = 505 ∧
    toBinary64 (505 + 1 / 2 ^ 44) = 505 + 1 / 2 ^ 44 ∧
    (⟨"a", 505, 900, ""⟩ : Format).height = (⟨"b", 505 + 1 / 2 ^ 44, 900, ""⟩ : Format).height ∧
    (⟨"a", 505, 900, ""⟩ : Format).width < (⟨"b", 505 + 1 / 2 ^ 44, 900, ""⟩ : Format).width ∧
    (getSmartScaleFactors64 ⟨"a", 505, 900, ""⟩).width = 4548635623644201 / 2 ^ 52 ∧
    (getSmartScaleFactors64 ⟨"b", 505 + 1 / 2 ^ 44, 900, ""⟩).width =
      4548635623644201 / 2 ^ 52 ∧
    ¬ ((getSmartScaleFactors64 ⟨"b", 505 + 1 / 2 ^ 44, 900, ""⟩).width >
      (getSmartScaleFactors64 ⟨"a", 505, 900, ""⟩).width) := by
  have h505 : toBinary64 505 = 505 := by
    unfold toBinary64
    rw [if_pos (by norm_num)]
    rw [binary64OfPos_eq 505 8 (505 * 2 ^ 44) (by norm_num) (by norm_num)
      (by norm_num [roundHalfEven])]
    norm_num
  have hnext : toBinary64 (505 + 1 / 2 ^ 44) = 505 + 1 / 2 ^ 44 := by
    unfold toBinary64
    rw [if_pos (by norm_num)]
    rw [binary64OfPos_eq (505 + 1 / 2 ^ 44) 8 (505 * 2 ^ 44 + 1) (by norm_num) (by norm_num)
      (by norm_num [roundHalfEven])]
    norm_num
  have hfirst : (getSmartScaleFactors64 ⟨"a", 505, 900, ""⟩).width =
      4548635623644201 / 2 ^ 52 := by
    simp only [getSmartScaleFactors64]
    unfold toBinary64
    rw [if_pos (by norm_num)]
    rw [binary64OfPos_eq (505 / 500) 0 4548635623644201 (by norm_num) (by norm_num)
      (by norm_num [roundHalfEven])]
    norm_num
  have hsecond : (getSmartScaleFactors64 ⟨"b", 505 + 1 / 2 ^ 44, 900, ""⟩).width =
      4548635623644201 / 2 ^ 52 := by
    simp only [getSmartScaleFactors64]
    unfold toBinary64
    rw [if_pos (by norm_num)]
    rw [binary64OfPos_eq ((505 + 1 / 2 ^ 44) / 500) 0 4548635623644201 (by norm_num)
      (by norm_num) (by norm_num [roundHalfEven])]
    norm_num
  refine ⟨h505, hnext, rfl, by norm_num, hfirst, hsecond, ?_⟩
  rw [hfirst, hsecond]
  exact lt_irrefl _

/-- C22 (amended): for formats of equal height, a larger width gives a width
scale factor that is at least as large; it is strictly larger when the
smaller width is positive, the widths differ by at least 1 and the larger is
at most 2^52, as with integer pixel widths; the exact quotients `width / 500`
are strictly ordered for all widths. -/
theorem width_scale_binary64_monotone (f₁ f₂ : Format) (_hheight : f₁.height = f₂.height)
    (hwidth : f₁.width < f₂.width) :
    (getSmartScaleFactors64 f₁).width ≤ (getSmartScaleFactors64 f₂).width ∧
    (0 < f₁.width → f₁.width + 1 ≤ f₂.width → f₂.width ≤ 2 ^ 52 →
      (getSmartScaleFactors64 f₁).width < (getSmartScaleFactors64 f₂).width) ∧
    (getSmartScaleFactors f₁).width < (getSmartScaleFactors f₂).width := by
  have hexact : f₁.width / 500 < f₂.width / 500 :=
    div_lt_div_of_pos_right hwidth (by norm_num)
  refine ⟨?_, ?_, ?_⟩
  · simp only [getSmartScaleFactors64]
    exact toBinary64_mono (le_of_lt hexact)
  · intro hpos hstep hmax
    have ha : 0 < f₁.width / 500 := div_pos hpos (by norm_num)
    have hb : 0 < f₂.width / 500 := lt_trans ha hexact
    simp only [getSmartScaleFactors64]
    unfold toBinary64
    rw [if_pos ha, if_pos hb]
    have h1 := (binary64OfPos_error (f₁.width / 500) ha).2
    have h2 := (binary64OfPos_error (f₂.width / 500) hb).1
    have hsum : f₁.width + f₂.width < 2 ^ (53 : ℕ) := by
      have h53 : (2 : ℚ) ^ (53 : ℕ) = 2 ^ (52 : ℕ) + 2 ^ (52 : ℕ) := by norm_num
      have hmax' : f₂.width ≤ 2 ^ (52 : ℕ) := hmax
      linarith
    have hgap : f₁.width / 500 + f₁.width / 500 / 2 ^ (53 : ℕ) <
        f₂.width / 500 - f₂.width / 500 / 2 ^ (53 : ℕ) := by
      have hp : (0 : ℚ) < 2 ^ (53 : ℕ) := by positivity
      have hq : (f₁.width + f₂.width) / 2 ^ (53 : ℕ) < 1 := by
        rw [div_lt_one hp]
        exact hsum
      have hexp : f₂.width / 500 - f₂.width / 500 / 2 ^ (53 : ℕ) -
          (f₁.width / 500 + f₁.width / 500 / 2 ^ (53 : ℕ)) =
          (f₂.width - f₁.width - (f₁.width + f₂.width) / 2 ^ (53 : ℕ)) / 500 := by
        field_simp
        ring
      have hnum : 0 < (f₂.width - f₁.width - (f₁.width + f₂.width) / 2 ^ (53 : ℕ)) / 500 := by
        apply div_pos _ (by norm_num)
        linarith
      linarith
    linarith
  · simp only [getSmartScaleFactors]
    exact hexact

/-- Witness of C22 (amended): the story width 500 against the A4 width 600
at equal heights. -/
theorem width_scale_binary64_monotone_witness :
    (⟨"a", 500, 900, ""⟩ : Format).height = (⟨"b", 600, 900, ""⟩ : Format).height ∧
    (⟨"a", 500, 900, ""⟩ : Format).width < (⟨"b", 600, 900, ""⟩ : Format).width ∧
    (getSmartScaleFactors64 ⟨"a", 500, 900, ""⟩).width ≤
      (getSmartScaleFactors64 ⟨"b", 600, 900, ""⟩).width ∧
    (getSmartScaleFactors64 ⟨"a", 500, 900, ""⟩).width <
      (getSmartScaleFactors64 ⟨"b", 600, 900, ""⟩).width :=
  ⟨rfl, by norm_num,
    (width_scale_binary64_monotone ⟨"a", 500, 900, ""⟩ ⟨"b", 600, 900, ""⟩ rfl
      (by norm_num)).1,
    (width_scale_binary64_monotone ⟨"a", 500, 900, ""⟩ ⟨"b", 600, 900, ""⟩ rfl
      (by norm_num)).2.1 (by norm_num) (by norm_num) (by norm_num)⟩

/-- C24: for a date with day `d`, zero-based month index `m` below 12 and
year `y` the footer's date string is the day, the entry `m` of the table of
twelve Arabic month names (January first, December last) and the year,
separated by blanks; the entry exists. -/
theorem arabicDate_valid (d y : ℤ) (m : ℕ) (hm : m < 12) :
    months.length = 12 ∧ months[0]? = some "يناير" ∧ months[11]? = some "ديسمبر" ∧
    ∃ name : String, months[m]? = some name ∧
      arabicDate ⟨JSNum.fin d, JSNum.fin (m : ℤ), JSNum.fin y⟩ =
        toString d ++ " " ++ name ++ " " ++ toString y ∧
      ∀ (newDate : String → DateObj) (data : DiscountData) (format : Format)
        (scale : ScaleFactors) (ratio : ℚ) (r : Rendered),
        newDate data.expiryDate = ⟨JSNum.fin d, JSNum.fin (m : ℤ), JSNum.fin y⟩ →
        ∃ (x y' : ℚ) (pill : RectNode) (label : TextNode),
          expiryGroupNode newDate data format scale ratio r =
            Node.group x y' true "" [Node.rect pill, Node.text label] ∧
          label.text = "ينتهي في: " ++ (toString d ++ " " ++ name ++ " " ++ toString y) := by
  refine ⟨rfl, rfl, rfl, ?_⟩
  have hlen : m < months.length := hm
  refine ⟨months[m], List.getElem?_eq_getElem hlen, ?_, ?_⟩
  · simp only [arabicDate, monthName, JSNum.toJSString, Int.toNat_ofNat, Nat.cast_nonneg,
      if_true, List.getD_eq_getElem?_getD, List.getElem?_eq_getElem hlen, Option.getD_some]
  · intro newDate data format scale ratio r hdate
    refine ⟨_, _, _, _, rfl, ?_⟩
    simp only [hdate, arabicDate, monthName, JSNum.toJSString, Int.toNat_ofNat, Nat.cast_nonneg,
      if_true, List.getD_eq_getElem?_getD, List.getElem?_eq_getElem hlen, Option.getD_some]

/-- Witness of C24: the last day of 2025. -/
theorem arabicDate_valid_witness :
    (11 : ℕ) < 12 ∧
    arabicDate ⟨JSNum.fin 31, JSNum.fin ((11 : ℕ) : ℤ), JSNum.fin 2025⟩ = "31 ديسمبر 2025" ∧
    ∃ name : String, months[11]? = some name ∧
      arabicDate ⟨JSNum.fin 31, JSNum.fin ((11 : ℕ) : ℤ), JSNum.fin 2025⟩ =
        toString (31 : ℤ) ++ " " ++ name ++ " " ++ toString (2025 : ℤ) :=
  ⟨by norm_num, by decide,
    (arabicDate_valid 31 2025 11 (by norm_num)).2.2.2.imp (fun _ h => ⟨h.1, h.2.1⟩)⟩

/-- C26: after the adjustment that makes the footer fit, the bottom edge of
the footer background (its `y` plus its height `round (60 * spacing)`) is at
most `format.height - margin`, and when the cursor before the adjustment
already meets that bound the footer is placed at that cursor. -/
theorem footer_fits (konva : TextEngine) (bidi : Option (String → String))
    (data : DiscountData) (key : String) (format : Format) (scale : ScaleFactors) (ratio : ℚ) :
    let r := renderPhase konva bidi data key format scale ratio
    (footerBgNode scale r).y = r.footerY ∧
    (footerBgNode scale r).height = mathRound (60 * scale.spacing) ∧
    (footerBgNode scale r).y + (footerBgNode scale r).height ≤ format.height - r.margin ∧
    (r.footerCursorY + mathRound (60 * scale.spacing) ≤ format.height - r.margin →
      (footerBgNode scale r).y = r.footerCursorY) := by
  intro r
  have hheight : r.scaledFooterHeight = mathRound (60 * scale.spacing) := rfl
  have hfooter : r.footerY =
      if r.footerCursorY + r.scaledFooterHeight > format.height - r.margin then
        format.height - r.margin - r.scaledFooterHeight
      else r.footerCursorY := rfl
  refine ⟨rfl, rfl, ?_, ?_⟩
  · show r.footerY + r.scaledFooterHeight ≤ format.height - r.margin
    rw [hfooter]
    split_ifs with h
    · linarith
    · exact not_lt.mp h
  · intro hbound
    show r.footerY = r.footerCursorY
    rw [hfooter, if_neg (not_lt.mpr (by rw [hheight]; exact hbound))]

/-- Witness of C26: the initial document in the story format, where the
cursor meets the bound. -/
theorem footer_fits_witness :
    (renderPhase singleLineEngine none defaultDiscountData "story"
        ⟨"Instagram Story", 500, 900, "1080×1920 px (9:16)"⟩
        (getSmartScaleFactors ⟨"Instagram Story", 500, 900, "1080×1920 px (9:16)"⟩)
        1).footerCursorY +
      mathRound (60 * (getSmartScaleFactors
        ⟨"Instagram Story", 500, 900, "1080×1920 px (9:16)"⟩).spacing) ≤
      (⟨"Instagram Story", 500, 900, "1080×1920 px (9:16)"⟩ : Format).height -
        (renderPhase singleLineEngine none defaultDiscountData "story"
          ⟨"Instagram Story", 500, 900, "1080×1920 px (9:16)"⟩
          (getSmartScaleFactors ⟨"Instagram Story", 500, 900, "1080×1920 px (9:16)"⟩)
          1).margin ∧
    (footerBgNode (getSmartScaleFactors ⟨"Instagram Story", 500, 900, "1080×1920 px (9:16)"⟩)
        (renderPhase singleLineEngine none defaultDiscountData "story"
          ⟨"Instagram Story", 500, 900, "1080×1920 px (9:16)"⟩
          (getSmartScaleFactors ⟨"Instagram Story", 500, 900, "1080×1920 px (9:16)"⟩) 1)).y =
      (renderPhase singleLineEngine none defaultDiscountData "story"
        ⟨"Instagram Story", 500, 900, "1080×1920 px (9:16)"⟩
        (getSmartScaleFactors ⟨"Instagram Story", 500, 900, "1080×1920 px (9:16)"⟩)
        1).footerCursorY := by
  have hbound : (renderPhase singleLineEngine none defaultDiscountData "story"
        ⟨"Instagram Story", 500, 900, "1080×1920 px (9:16)"⟩
        (getSmartScaleFactors ⟨"Instagram Story", 500, 900, "1080×1920 px (9:16)"⟩)
        1).footerCursorY +
      mathRound (60 * (getSmartScaleFactors
        ⟨"Instagram Story", 500, 900, "1080×1920 px (9:16)"⟩).spacing) ≤
      (⟨"Instagram Story", 500, 900, "1080×1920 px (9:16)"⟩ : Format).height -
        (renderPhase singleLineEngine none defaultDiscountData "story"
          ⟨"Instagram Story", 500, 900, "1080×1920 px (9:16)"⟩
          (getSmartScaleFactors ⟨"Instagram Story", 500, 900, "1080×1920 px (9:16)"⟩)
          1).margin := by
    have hcols : categoryCols "story" = 2 := by decide
    norm_num [renderPhase, getSmartScaleFactors, defaultDiscountData, mathRound, mathCeil,
      measureText, nodeHeight, singleLineEngine, truthy, hcols]
  exact ⟨hbound,
    (footer_fits singleLineEngine none defaultDiscountData "story"
      ⟨"Instagram Story", 500, 900, "1080×1920 px (9:16)"⟩
      (getSmartScaleFactors ⟨"Instagram Story", 500, 900, "1080×1920 px (9:16)"⟩) 1).2.2.2
      hbound⟩

/-! ## Category cells and measurement failure -/

/-- The row of a category is the natural-number quotient of its index. -/
theorem categoryRow_eq_div (cols index : ℕ) :
    categoryRow cols index = ((index / cols : ℕ) : ℚ) := by
  unfold categoryRow mathFloor
  rw [Rat.floor_natCast_div_natCast]
  norm_cast

/-- C29: for a column count of at least 1 the category with index `i` lies in
column `i mod cols`, below `cols`, and row `floor (i / cols)`, with
`i = row * cols + column`; two categories in the same cell have the same
index, and with positive horizontal and vertical steps the positions of two
different categories differ. -/
theorem category_cells_injective (cols : ℕ) (hcols : 1 ≤ cols) :
    (∀ i : ℕ, categoryCol cols i = i % cols ∧ categoryCol cols i < cols ∧
      categoryRow cols i = ((i / cols : ℕ) : ℚ) ∧
      (i : ℚ) = categoryRow cols i * (cols : ℚ) + (categoryCol cols i : ℚ)) ∧
    (∀ i j : ℕ, categoryCol cols i = categoryCol cols j →
      categoryRow cols i = categoryRow cols j → i = j) ∧
    (∀ r : Rendered, r.categoryCols = cols →
      0 < r.categoryWidth + r.scaledCategoryGap →
      0 < r.scaledCategoryRowHeight + r.scaledCategoryGap →
      ∀ i j : ℕ, i ≠ j → categoryPosition r i ≠ categoryPosition r j) := by
  have hinj : ∀ i j : ℕ, categoryCol cols i = categoryCol cols j →
      categoryRow cols i = categoryRow cols j → i = j := by
    intro i j hcol hrow
    rw [categoryRow_eq_div, categoryRow_eq_div] at hrow
    have hdiv : i / cols = j / cols := by exact_mod_cast hrow
    have hmod : i % cols = j % cols := hcol
    rw [← Nat.div_add_mod i cols, ← Nat.div_add_mod j cols, hdiv, hmod]
  refine ⟨?_, hinj, ?_⟩
  · intro i
    refine ⟨rfl, Nat.mod_lt i hcols, categoryRow_eq_div cols i, ?_⟩
    rw [categoryRow_eq_div]
    unfold categoryCol
    have h := Nat.div_add_mod' i cols
    exact_mod_cast h.symm
  · intro r hr hx hy i j hij hpos
    apply hij
    have hxeq := congrArg Prod.fst hpos
    have hyeq := congrArg Prod.snd hpos
    simp only [categoryPosition, hr] at hxeq hyeq
    have hcol : (categoryCol cols i : ℚ) = (categoryCol cols j : ℚ) := by
      have h := add_left_cancel hxeq
      exact mul_right_cancel₀ (ne_of_gt hx) h
    have hrow : categoryRow cols i = categoryRow cols j := by
      have h := add_left_cancel hyeq
      exact mul_right_cancel₀ (ne_of_gt hy) h
    exact hinj i j (by exact_mod_cast hcol) hrow

/-- Witness of C29: two columns, and the second and third category of the
story layout of the initial document. -/
theorem category_cells_injective_witness :
    (1 : ℕ) ≤ 2 ∧ (categoryCol 2 1 = categoryCol 2 3 → categoryRow 2 1 = categoryRow 2 3 →
      (1 : ℕ) = 3) ∧ categoryCol 2 3 < 2 :=
  ⟨by norm_num, (category_cells_injective 2 (by norm_num)).2.1 1 3,
    ((category_cells_injective 2 (by norm_num)).1 3).2.1⟩

/-- C23 (counterexample): with a text engine whose `height()` throws, the
measure helper called for the store name of the initial document returns no
estimate, the exception leaves it, and `createDiscountDesign` in the story
format ends with that exception. -/
theorem measureText_throws_counterexample :
    measureTextE (fun _ => Except.error "height failed") defaultDiscountData.storeName 35
        "Almarai, Arial" "bold" 440 = Except.error "height failed" ∧
    (∀ estimate : ℚ,
      measureTextE (fun _ => Except.error "height failed") defaultDiscountData.storeName 35
        "Almarai, Arial" "bold" 440 ≠ Except.ok estimate) ∧
    createDiscountDesignE (fun _ => Except.error "height failed") none defaultDiscountData
        "story" = Except.error "height failed" := by
  refine ⟨rfl, ?_, rfl⟩
  intro estimate h
  cases h

/-- C23 (amended): the measure helper has no fallback: it returns what the
text engine's `height()` returns for the text at line height 1.3, and an
exception thrown there leaves the helper, ends the measure phase and ends
`createDiscountDesign`; with an engine that never throws the call completes
with the layout of the engine's heights. -/
theorem measureText_no_fallback (konva : ThrowingEngine) :
    (∀ (text : String) (fontSize : ℚ) (fontFamily fontStyle : String) (maxWidth : ℚ),
      measureTextE konva text fontSize fontFamily fontStyle maxWidth =
        konva ⟨text, fontSize, fontFamily, fontStyle, maxWidth, 1.3⟩) ∧
    (∀ (data : DiscountData) (format : Format) (scale : ScaleFactors) (message : String),
      measureTextE konva data.storeName (mathRound (32 * scale.font)) "Almarai, Arial" "bold"
          (format.width - (mathRound (30 * scale.spacing) * 2)) = Except.error message →
      measurePhaseE konva data format scale = Except.error message) ∧
    (∀ (bidi : Option (String → String)) (data : DiscountData) (key : String) (format : Format)
        (message : String),
      discountFormats key = some format →
      measureTextE konva data.storeName (mathRound (32 * (getSmartScaleFactors format).font))
          "Almarai, Arial" "bold"
          (format.width - (mathRound (30 * (getSmartScaleFactors format).spacing) * 2)) =
        Except.error message →
      createDiscountDesignE konva bidi data key = Except.error message) ∧
    (∀ (total : TextEngine) (bidi : Option (String → String)) (data : DiscountData)
        (key : String) (format : Format),
      discountFormats key = some format →
      createDiscountDesignE (fun spec => Except.ok (total spec)) bidi data key =
        Except.ok (renderPhase total bidi data key format (fitPhase total data format).scale
          (fitPhase total data format).fitRatio)) := by
  have hmeasure : ∀ (data : DiscountData) (format : Format) (scale : ScaleFactors)
      (message : String),
      measureTextE konva data.storeName (mathRound (32 * scale.font)) "Almarai, Arial" "bold"
          (format.width - (mathRound (30 * scale.spacing) * 2)) = Except.error message →
      measurePhaseE konva data format scale = Except.error message := by
    intro data format scale message h
    unfold measurePhaseE
    simp only [h]
    rfl
  refine ⟨fun _ _ _ _ _ => rfl, hmeasure, ?_, ?_⟩
  · intro bidi data key format message hformat h
    unfold createDiscountDesignE
    simp only [hformat, hmeasure data format (getSmartScaleFactors format) message h]
    rfl
  · intro total bidi data key format hformat
    unfold createDiscountDesignE
    simp only [hformat]
    rfl

/-- Witness of C23 (amended): the initial document in the story format with
an engine that throws, and with single-line text heights. -/
theorem measureText_no_fallback_witness :
    createDiscountDesignE (fun _ => Except.error "height failed") none defaultDiscountData
        "story" = Except.error "height failed" ∧
    createDiscountDesignE (fun spec => Except.ok (singleLineEngine spec)) none
        defaultDiscountData "story" =
      Except.ok (renderPhase singleLineEngine none defaultDiscountData "story"
        ⟨"Instagram Story", 500, 900, "1080×1920 px (9:16)"⟩
        (fitPhase singleLineEngine defaultDiscountData
          ⟨"Instagram Story", 500, 900, "1080×1920 px (9:16)"⟩).scale
        (fitPhase singleLineEngine defaultDiscountData
          ⟨"Instagram Story", 500, 900, "1080×1920 px (9:16)"⟩).fitRatio) :=
  ⟨(measureText_no_fallback (fun _ => Except.error "height failed")).2.2.1 none
      defaultDiscountData "story" ⟨"Instagram Story", 500, 900, "1080×1920 px (9:16)"⟩
      "height failed" rfl rfl,
    (measureText_no_fallback (fun spec => Except.ok (singleLineEngine spec))).2.2.2
      singleLineEngine none defaultDiscountData "story"
      ⟨"Instagram Story", 500, 900, "1080×1920 px (9:16)"⟩ rfl⟩

end DiscountTool

namespace I18nSystem

/-! ## Language detection and toggling -/

/-- The supported-language test accepts exactly `en` and `ar`. -/
theorem isSupported_iff (value : Option String) :
    isSupported value = true ↔ value = some "en" ∨ value = some "ar" := by
  cases value with
  | none => simp [isSupported]
  | some v =>
    by_cases hen : v = "en"
    · subst hen
      decide
    · by_cases har : v = "ar"
      · subst har
        decide
      · have hen' : (v == "en") = false := beq_eq_false_iff_ne.mpr hen
        have har' : (v == "ar") = false := beq_eq_false_iff_ne.mpr har
        have hno : isSupported (some v) = false := by
          simp [isSupported, List.contains, List.elem, hen', har']
        simp [hno, hen, har]

/-- Every field `setLanguage` writes follows from the language. -/
theorem setLanguage_setLanguage (a b : String) (s : State) :
    setLanguage a (setLanguage b s) = setLanguage a s := rfl

/-- C27: `detectLanguage` takes the saved value when it is `en` or `ar`,
otherwise the URL parameter `lang` when it is `en` or `ar`, otherwise `ar`;
the language it sets is always `en` or `ar`. -/
theorem detectLanguage_priority (langParam : Option String) (s : State) :
    (∀ saved : String, s.storedLanguage = some saved → saved = "en" ∨ saved = "ar" →
      detectLanguage langParam s = setLanguage saved s) ∧
    (∀ param : String, ¬ (s.storedLanguage = some "en" ∨ s.storedLanguage = some "ar") →
      langParam = some param → param = "en" ∨ param = "ar" →
      detectLanguage langParam s = setLanguage param s) ∧
    (¬ (s.storedLanguage = some "en" ∨ s.storedLanguage = some "ar") →
      ¬ (langParam = some "en" ∨ langParam = some "ar") →
      detectLanguage langParam s = setLanguage "ar" s) ∧
    ((detectLanguage langParam s).currentLanguage = "en" ∨
      (detectLanguage langParam s).currentLanguage = "ar") ∧
    (construct langParam s).currentLanguage =
      (detectLanguage langParam s).currentLanguage := by
  refine ⟨?_, ?_, ?_, ?_, ?_⟩
  · intro saved hsaved hlang
    have hsup : isSupported s.storedLanguage = true := by
      rw [isSupported_iff, hsaved]
      rcases hlang with h | h <;> subst h
      · exact Or.inl rfl
      · exact Or.inr rfl
    unfold detectLanguage
    rw [if_pos hsup, hsaved]
    rfl
  · intro param hstored hparam hlang
    have hno : ¬ isSupported s.storedLanguage = true := by
      rw [isSupported_iff]
      exact hstored
    have hsup : isSupported langParam = true := by
      rw [isSupported_iff, hparam]
      rcases hlang with h | h <;> subst h
      · exact Or.inl rfl
      · exact Or.inr rfl
    unfold detectLanguage
    rw [if_neg hno, if_pos hsup, hparam]
    rfl
  · intro hstored hparam
    have hno : ¬ isSupported s.storedLanguage = true := by
      rw [isSupported_iff]
      exact hstored
    have hno' : ¬ isSupported langParam = true := by
      rw [isSupported_iff]
      exact hparam
    unfold detectLanguage
    rw [if_neg hno, if_neg hno']
  · unfold detectLanguage
    by_cases hsup : isSupported s.storedLanguage = true
    · rw [if_pos hsup]
      rcases (isSupported_iff _).mp hsup with h | h <;> rw [h]
      · exact Or.inl rfl
      · exact Or.inr rfl
    · rw [if_neg hsup]
      by_cases hsup' : isSupported langParam = true
      · rw [if_pos hsup']
        rcases (isSupported_iff _).mp hsup' with h | h <;> rw [h]
        · exact Or.inl rfl
        · exact Or.inr rfl
      · rw [if_neg hsup']
        exact Or.inr rfl
  · unfold construct detectLanguage
    simp only
    split_ifs <;> rfl

/-- Witness of C27: a saved `en` wins over the URL parameter `ar`; an
unsupported saved value gives way to the parameter; without either the
language is `ar`. -/
theorem detectLanguage_priority_witness :
    detectLanguage (some "ar") ⟨"en", "ltr", some "en", "", "", false⟩ =
      setLanguage "en" ⟨"en", "ltr", some "en", "", "", false⟩ ∧
    detectLanguage (some "en") ⟨"en", "ltr", some "fr", "", "", false⟩ =
      setLanguage "en" ⟨"en", "ltr", some "fr", "", "", false⟩ ∧
    detectLanguage (some "de") ⟨"en", "ltr", none, "", "", false⟩ =
      setLanguage "ar" ⟨"en", "ltr", none, "", "", false⟩ :=
  ⟨(detectLanguage_priority (some "ar") ⟨"en", "ltr", some "en", "", "", false⟩).1 "en" rfl
      (Or.inl rfl),
    (detectLanguage_priority (some "en") ⟨"en", "ltr", some "fr", "", "", false⟩).2.1 "en"
      (by decide) rfl (Or.inl rfl),
    (detectLanguage_priority (some "de") ⟨"en", "ltr", none, "", "", false⟩).2.2.1
      (by decide) (by decide)⟩

/-- A reachable state is the one `setLanguage` leaves for its language. -/
theorem reachable_eq_setLanguage (s : State) (h : Reachable s) :
    s = setLanguage s.currentLanguage s := by
  cases h with
  | construct langParam page =>
    unfold construct detectLanguage
    simp only
    split_ifs <;> rfl
  | setLanguage lang s _ => rfl
  | toggleLanguage s _ => rfl

/-- C30 (counterexample): after `setLanguage('fr')`, a state reached from
construction, two calls of `toggleLanguage` leave the language `ar`, not
`fr`. -/
theorem toggle_twice_counterexample :
    Reachable (setLanguage "fr" (construct none ⟨"", "", none, "", "", false⟩)) ∧
    (setLanguage "fr" (construct none ⟨"", "", none, "", "", false⟩)).currentLanguage = "fr" ∧
    (toggleLanguage
      (setLanguage "fr" (construct none ⟨"", "", none, "", "", false⟩))).currentLanguage = "en" ∧
    (toggleLanguage (toggleLanguage
      (setLanguage "fr" (construct none ⟨"", "", none, "", "", false⟩)))).currentLanguage = "ar" ∧
    (toggleLanguage (toggleLanguage
        (setLanguage "fr" (construct none ⟨"", "", none, "", "", false⟩)))).currentLanguage ≠
      (setLanguage "fr" (construct none ⟨"", "", none, "", "", false⟩)).currentLanguage := by
  refine ⟨Reachable.setLanguage _ _ (Reachable.construct _ _), rfl, ?_, ?_, ?_⟩ <;> decide

/-- C30 (amended): in every state reached from construction by calls of
`setLanguage` and `toggleLanguage` the direction is `rtl` exactly when the
language is `ar`, and `isRTL` says so; `toggleLanguage` maps `en` to `ar` and
every other language, `ar` among them, to `en`; when the language is `en` or
`ar` two calls of `toggleLanguage` give the state back, language and direction
included. -/
theorem direction_follows_language (s : State) (h : Reachable s) :
    (s.direction = "rtl" ↔ s.currentLanguage = "ar") ∧
    (isRTL s = true ↔ getCurrentLanguage s = "ar") ∧
    (s.currentLanguage = "en" → (toggleLanguage s).currentLanguage = "ar") ∧
    (s.currentLanguage ≠ "en" → (toggleLanguage s).currentLanguage = "en") ∧
    (s.currentLanguage = "en" ∨ s.currentLanguage = "ar" →
      toggleLanguage (toggleLanguage s) = s) := by
  have hstate := reachable_eq_setLanguage s h
  have hdir : s.direction = "rtl" ↔ s.currentLanguage = "ar" := by
    have hd : s.direction = if s.currentLanguage = "ar" then "rtl" else "ltr" :=
      congrArg State.direction hstate
    rw [hd]
    by_cases hl : s.currentLanguage = "ar"
    · simp [hl]
    · simp only [if_neg hl, hl, iff_false]
      decide
  refine ⟨hdir, ?_, ?_, ?_, ?_⟩
  · unfold isRTL getCurrentLanguage
    rw [beq_iff_eq]
    exact hdir
  · intro hen
    unfold toggleLanguage
    simp only [hen, if_true]
    rfl
  · intro hne
    unfold toggleLanguage
    simp only [if_neg hne]
    rfl
  · intro hlang
    rcases hlang with hl | hl
    · have h1 : toggleLanguage s = setLanguage "ar" s := by
        unfold toggleLanguage
        simp only [hl, if_true]
      have h2 : toggleLanguage (setLanguage "ar" s) = setLanguage "en" s := rfl
      rw [h1, h2]
      conv_rhs => rw [hstate, hl]
    · have h1 : toggleLanguage s = setLanguage "en" s := by
        unfold toggleLanguage
        have hne : ¬ s.currentLanguage = "en" := by rw [hl]; decide
        simp only [if_neg hne]
      have h2 : toggleLanguage (setLanguage "en" s) = setLanguage "ar" s := rfl
      rw [h1, h2]
      conv_rhs => rw [hstate, hl]

/-- Witness of C30 (amended): the state after construction with nothing
saved and no URL parameter. -/
theorem direction_follows_language_witness :
    Reachable (construct none ⟨"", "", none, "", "", false⟩) ∧
    ((construct none ⟨"", "", none, "", "", false⟩).direction = "rtl" ↔
      (construct none ⟨"", "", none, "", "", false⟩).currentLanguage = "ar") ∧
    toggleLanguage (toggleLanguage (construct none ⟨"", "", none, "", "", false⟩)) =
      construct none ⟨"", "", none, "", "", false⟩ :=
  ⟨Reachable.construct _ _,
    (direction_follows_language (construct none ⟨"", "", none, "", "", false⟩)
      (Reachable.construct _ _)).1,
    (direction_follows_language (construct none ⟨"", "", none, "", "", false⟩)
      (Reachable.construct _ _)).2.2.2.2 (Or.inr rfl)⟩

end I18nSystem

namespace TemplateEngine

/-! ## The helper `and` -/

/-- C25 (the code departs from the claim): called with the arguments `true`
and `false`, the helper `and` returns `true` although not every argument is
truthy; in general it returns `true` exactly when every argument but the last
is truthy, so with a single argument it returns `true` whatever that is. -/
theorem and_helper_drops_last_argument :
    andHelper [Value.bool true, Value.bool false] = true ∧
    ¬ (∀ arg ∈ [Value.bool true, Value.bool false], toBoolean arg = true) ∧
    andHelper [Value.bool false] = true ∧
    (∀ args : List Value,
      andHelper args = true ↔ ∀ arg ∈ args.dropLast, toBoolean arg = true) := by
  refine ⟨by decide, by decide, by decide, ?_⟩
  intro args
  simp only [andHelper, List.all_eq_true]

end TemplateEngine

namespace QRGenerator

/-! ## WhatsApp link -/

/-- C28: for a number that is not blank the QR data is `https://wa.me/`, the
trimmed number reduced to its digits and `+` signs, and `?text=` with the
URI-encoded trimmed message when that message is not empty; a blank number
gives no QR code. -/
theorem whatsapp_qr_data (encodeURIComponent : String → String) (inputs : Inputs) :
    (trim inputs.whatsappNumber ≠ "" →
      generateQRCode encodeURIComponent "whatsapp" inputs =
        some
          ("https://wa.me/" ++ cleanNumber (trim inputs.whatsappNumber) ++
              (if trim inputs.whatsappMessage = "" then ""
                else "?text=" ++ encodeURIComponent (trim inputs.whatsappMessage)),
            "WhatsApp Link")) ∧
    (cleanNumber (trim inputs.whatsappNumber)).toList =
      (trim inputs.whatsappNumber).toList.filter
        (fun c => decide ((48 ≤ c.toNat ∧ c.toNat ≤ 57) ∨ c = '+')) ∧
    (∀ c ∈ (cleanNumber (trim inputs.whatsappNumber)).toList,
      (48 ≤ c.toNat ∧ c.toNat ≤ 57) ∨ c = '+') ∧
    (trim inputs.whatsappNumber = "" →
      generateQRCode encodeURIComponent "whatsapp" inputs = none) := by
  have hkeep : ∀ c : Char, (c.isDigit || decide (c = '+')) =
      decide ((48 ≤ c.toNat ∧ c.toNat ≤ 57) ∨ c = '+') := by
    intro c
    rw [Bool.eq_iff_iff]
    simp only [Char.isDigit, Bool.or_eq_true, Bool.and_eq_true, decide_eq_true_eq, ge_iff_le,
      UInt32.le_def, Char.toNat]
    rfl
  have hfilter : (cleanNumber (trim inputs.whatsappNumber)).toList =
      (trim inputs.whatsappNumber).toList.filter
        (fun c => decide ((48 ≤ c.toNat ∧ c.toNat ≤ 57) ∨ c = '+')) := by
    simp only [cleanNumber, String.toList, hkeep]
  refine ⟨?_, hfilter, ?_, ?_⟩
  · intro hnumber
    have htype : ¬ ("whatsapp" = "url") := by decide
    unfold generateQRCode
    simp only [if_neg htype, if_true, if_neg hnumber]
    by_cases hmessage : trim inputs.whatsappMessage = ""
    · simp [hmessage]
    · simp [hmessage]
  · intro c hc
    rw [hfilter, List.mem_filter] at hc
    simpa using hc.2
  · intro hblank
    have htype : ¬ ("whatsapp" = "url") := by decide
    unfold generateQRCode
    simp only [if_neg htype, if_true, if_pos hblank]

/-- Witness of C28: a number with blanks and dashes and a message, and a
blank number. -/
theorem whatsapp_qr_data_witness :
    trim " +971 50-123 4567 " ≠ "" ∧
    generateQRCode (fun s => s) "whatsapp" ⟨"", " +971 50-123 4567 ", " hi ", ""⟩ =
      some ("https://wa.me/+971501234567?text=hi", "WhatsApp Link") ∧
    generateQRCode (fun s => s) "whatsapp" ⟨"", " +971 50-123 4567 ", " hi ", ""⟩ =
      some
        ("https://wa.me/" ++ cleanNumber (trim " +971 50-123 4567 ") ++
            (if trim " hi " = "" then "" else "?text=" ++ (fun s => s) (trim " hi ")),
          "WhatsApp Link") ∧
    generateQRCode (fun s => s) "whatsapp" ⟨"", "   ", " hi ", ""⟩ = none :=
  ⟨by decide, by decide,
    (whatsapp_qr_data (fun s => s) ⟨"", " +971 50-123 4567 ", " hi ", ""⟩).1 (by decide),
    (whatsapp_qr_data (fun s => s) ⟨"", "   ", " hi ", ""⟩).2.2.2 (by decide)⟩

end QRGenerator
